import Mathlib

/-!
Verification development for the stock-signal engine in
`20-Process-stock-data/lambda_function.py`.

Modelling conventions:
* Python floats are modelled as exact rationals; a float `NaN` is modelled as
  `none` in `Fl := Option ℚ`.  Every IEEE comparison involving a NaN is false,
  which `flLt`/`flGt` reproduce.  Division by zero is mapped to `none`
  (pandas yields NaN for `0/0` and an infinity for `x/0` with `x ≠ 0`; for
  well-formed rows, where `low ≤ close ≤ high`, the numerator of the
  stochastic `%K` is zero whenever its denominator is, so the infinite case
  does not arise on the inputs the engine is fed).
* pandas `rolling(window=w)` statistics with the default `min_periods` give
  NaN for the first `w - 1` positions; the rolling definitions below return
  `none` there.
* `rolling(...).std()` takes a square root of a sample variance, which is not
  rational in general, so the whole pipeline is parametrised by the square
  root implementation `sq : ℚ → ℚ`.  No theorem below depends on the values
  `sq` produces.
* A Python dict literal is an ordered association list in which a duplicated
  key keeps the position of its first occurrence and the value of its last
  occurrence; `pyDict` implements exactly that insertion semantics.
-/

/-- Possibly-NaN float value: `none` models IEEE NaN. -/
abbrev Fl := Option ℚ

/-- Addition on possibly-NaN values; NaN propagates. -/
def flAdd : Fl → Fl → Fl
  | some a, some b => some (a + b)
  | _, _ => none

/-- Subtraction on possibly-NaN values; NaN propagates. -/
def flSub : Fl → Fl → Fl
  | some a, some b => some (a - b)
  | _, _ => none

/-- Multiplication by a constant; NaN propagates. -/
def flMulC (c : ℚ) (v : Fl) : Fl := v.map (fun x => c * x)

/-- Division by a constant (the constant is a nonzero window size). -/
def flDivC (v : Fl) (c : ℚ) : Fl := v.map (fun x => x / c)

/-- Division; NaN propagates, and a zero divisor yields NaN. -/
def flDiv : Fl → Fl → Fl
  | some a, some b => if b = 0 then none else some (a / b)
  | _, _ => none

/-- Absolute value; NaN propagates. -/
def flAbs (v : Fl) : Fl := v.map (fun x => |x|)

/-- Strict `<` comparison: any comparison with NaN is false, as in IEEE. -/
def flLt : Fl → Fl → Bool
  | some a, some b => decide (a < b)
  | _, _ => false

/-- Strict `>` comparison: any comparison with NaN is false, as in IEEE. -/
def flGt (a b : Fl) : Bool := flLt b a

/-- Window of the last `w` values ending at index `i` (inclusive). -/
def winAt (w : ℕ) (xs : List ℚ) (i : ℕ) : List ℚ := (xs.take (i + 1)).drop (i + 1 - w)

/-- pandas `Series.rolling(window=w).mean()` over a NaN-free series. -/
def rollingMean (w : ℕ) (xs : List ℚ) : List Fl :=
  (List.range xs.length).map (fun i =>
    if i + 1 < w then none else some ((winAt w xs i).sum / (w : ℚ)))

/-- pandas `Series.rolling(window=w).min()` over a NaN-free series. -/
def rollingMin (w : ℕ) (xs : List ℚ) : List Fl :=
  (List.range xs.length).map (fun i =>
    if i + 1 < w then none else
      match winAt w xs i with
      | [] => none
      | y :: ys => some (ys.foldl min y))

/-- pandas `Series.rolling(window=w).max()` over a NaN-free series. -/
def rollingMax (w : ℕ) (xs : List ℚ) : List Fl :=
  (List.range xs.length).map (fun i =>
    if i + 1 < w then none else
      match winAt w xs i with
      | [] => none
      | y :: ys => some (ys.foldl max y))

/-- pandas `Series.rolling(window=w).std()` (sample standard deviation,
`ddof = 1`), parametrised by the square-root implementation `sq`. -/
def rollingStd (sq : ℚ → ℚ) (w : ℕ) (xs : List ℚ) : List Fl :=
  (List.range xs.length).map (fun i =>
    if i + 1 < w then none else
      some (sq ((((winAt w xs i).map
        (fun x => (x - (winAt w xs i).sum / (w : ℚ)) ^ 2)).sum) / ((w : ℚ) - 1))))

/-- Rolling mean over a series that may contain NaN entries: any NaN inside
the window makes the result NaN, matching pandas. -/
def rollingMeanFl (w : ℕ) (xs : List Fl) : List Fl :=
  (List.range xs.length).map (fun i =>
    if i + 1 < w then none else
      flDivC (((xs.take (i + 1)).drop (i + 1 - w)).foldl flAdd (some 0)) (w : ℚ))

/-- Recurrence of `ewm(span, adjust=False).mean()`. -/
def ewmGo (a : ℚ) (y : ℚ) : List ℚ → List ℚ
  | [] => []
  | x :: rest => ((1 - a) * y + a * x) :: ewmGo a ((1 - a) * y + a * x) rest

/-- pandas `Series.ewm(span=span, adjust=False).mean()`. -/
def ewmMean (span : ℕ) : List ℚ → List ℚ
  | [] => []
  | x :: rest => x :: ewmGo (2 / ((span : ℚ) + 1)) x rest

/-- pandas `Series.diff()`: NaN at index 0, day-over-day delta afterwards. -/
def diffL (xs : List ℚ) : List Fl :=
  match xs with
  | [] => []
  | _ :: rest => none :: List.zipWith (fun b a => some (b - a)) rest xs

/-- `delta.where(delta > 0, 0)`: the positive deltas, with NaN mapped to 0. -/
def gainsL (xs : List ℚ) : List ℚ :=
  (diffL xs).map (fun d =>
    match d with
    | some d => if 0 < d then d else 0
    | none => 0)

/-- `(-delta.where(delta < 0, 0))`: the negated negative deltas, NaN to 0. -/
def lossesL (xs : List ℚ) : List ℚ :=
  (diffL xs).map (fun d =>
    match d with
    | some d => if d < 0 then -d else 0
    | none => 0)

/-- `loss.replace(0, np.nan)` applied pointwise. -/
def replaceZeroNaN : Fl → Fl
  | some q => if q = 0 then none else some q
  | none => none

/-- `gain = delta.where(delta > 0, 0).rolling(window=period).mean()`. -/
def rsiGain (period : ℕ) (xs : List ℚ) : List Fl := rollingMean period (gainsL xs)

/-- `loss = ...rolling(...).mean()` followed by `loss.replace(0, np.nan)`. -/
def rsiLoss (period : ℕ) (xs : List ℚ) : List Fl :=
  (rollingMean period (lossesL xs)).map replaceZeroNaN

/-- `rs = gain / loss`, pointwise. -/
def rsiRs (period : ℕ) (xs : List ℚ) : List Fl :=
  List.zipWith flDiv (rsiGain period xs) (rsiLoss period xs)

/-- `100 - 100/(1 + rs)` on one entry.  (When `1 + rs = 0` pandas would
produce an infinity; this cannot happen since `rs ≥ 0`, and the model maps
that unreachable case to NaN.) -/
def rsiPoint : Fl → Fl
  | some r => if 1 + r = 0 then none else some (100 - 100 / (1 + r))
  | none => none

/-- `calculate_rsi`: rolling mean of gains and of losses, zero loss replaced
by NaN, `rsi = 100 - 100/(1 + gain/loss)`, and `fillna(50)` at the end. -/
def rsiSeries (period : ℕ) (xs : List ℚ) : List ℚ :=
  ((rsiRs period xs).map rsiPoint).map (fun v => v.getD 50)

/-- `calculate_rsi(...).iloc[-1]` as used by the engine. -/
def rsiLatestOf (xs : List ℚ) : ℚ := (rsiSeries 14 xs).getLastD 0

/-- `calculate_macd`: MACD line = EMA(fast) − EMA(slow). -/
def macdOf (fastp slowp : ℕ) (xs : List ℚ) : List ℚ :=
  List.zipWith (fun a b => a - b) (ewmMean fastp xs) (ewmMean slowp xs)

/-- `calculate_macd`: signal line = EMA(signalp) of the MACD line. -/
def macdSigLineOf (fastp slowp sigp : ℕ) (xs : List ℚ) : List ℚ :=
  ewmMean sigp (macdOf fastp slowp xs)

/-- `calculate_bollinger_bands`: upper band = SMA + std · nbdevup. -/
def bbUpperOf (sq : ℚ → ℚ) (w : ℕ) (nbdevup : ℚ) (xs : List ℚ) : List Fl :=
  List.zipWith flAdd (rollingMean w xs)
    ((rollingStd sq w xs).map (fun v => v.map (fun x => x * nbdevup)))

/-- `calculate_bollinger_bands`: lower band = SMA − std · nbdevdn. -/
def bbLowerOf (sq : ℚ → ℚ) (w : ℕ) (nbdevdn : ℚ) (xs : List ℚ) : List Fl :=
  List.zipWith flSub (rollingMean w xs)
    ((rollingStd sq w xs).map (fun v => v.map (fun x => x * nbdevdn)))

/-- `calculate_stochastic_oscillator`: `%K` smoothed (slowk). -/
def slowkOfLists (fastkp slowkp : ℕ) (highs lows closes : List ℚ) : List Fl :=
  let ll := rollingMin fastkp lows
  let hh := rollingMax fastkp highs
  let fastk := List.zipWith flDiv
    ((List.zipWith (fun c l => flSub (some c) l) closes ll).map (flMulC 100))
    (List.zipWith flSub hh ll)
  rollingMeanFl slowkp fastk

/-- `calculate_stochastic_oscillator`: slowd = rolling mean of slowk. -/
def slowdOfLists (fastkp slowkp slowdp : ℕ) (highs lows closes : List ℚ) : List Fl :=
  rollingMeanFl slowdp (slowkOfLists fastkp slowkp highs lows closes)

/-- One OHLCV observation.  The row appended for the current tick carries no
timestamp (`none`), exactly like the dict built in `lambda_handler`. -/
structure Row where
  close : ℚ
  high : ℚ
  low : ℚ
  volume : ℤ
  timestamp : Option ℤ
deriving DecidableEq

/-- `close_prices = [float(item['close']) for item in all_data]`. -/
def closesOf (rows : List Row) : List ℚ := rows.map Row.close

/-- `high_prices` extracted from the series. -/
def highsOf (rows : List Row) : List ℚ := rows.map Row.high

/-- `low_prices` extracted from the series. -/
def lowsOf (rows : List Row) : List ℚ := rows.map Row.low

/-- `volumes` extracted from the series. -/
def volumesOf (rows : List Row) : List ℤ := rows.map Row.volume

/-- `close_prices[-1]`. -/
def latestClose (rows : List Row) : ℚ := (closesOf rows).getLastD 0

/-- `volumes[-1]`. -/
def latestVolume (rows : List Row) : ℤ := (volumesOf rows).getLastD 0

/-- The MACD line of the series (`fastperiod=12, slowperiod=26`). -/
def macdListOf (rows : List Row) : List ℚ := macdOf 12 26 (closesOf rows)

/-- The MACD signal line of the series (`signalperiod=9`). -/
def sigLineListOf (rows : List Row) : List ℚ := macdSigLineOf 12 26 9 (closesOf rows)

/-- `latest_macd = float(macd.iloc[-1])`. -/
def latestMacd (rows : List Row) : ℚ := (macdListOf rows).getLastD 0

/-- `prev_macd = float(macd.iloc[-2]) if len(macd) > 1 else latest_macd`. -/
def prevMacd (rows : List Row) : ℚ :=
  if 1 < (macdListOf rows).length then (macdListOf rows).getD ((macdListOf rows).length - 2) 0
  else latestMacd rows

/-- `latest_signal = float(signal.iloc[-1])`. -/
def latestSigLine (rows : List Row) : ℚ := (sigLineListOf rows).getLastD 0

/-- `prev_signal = float(signal.iloc[-2]) if len(signal) > 1 else latest_signal`. -/
def prevSigLine (rows : List Row) : ℚ :=
  if 1 < (sigLineListOf rows).length then
    (sigLineListOf rows).getD ((sigLineListOf rows).length - 2) 0
  else latestSigLine rows

/-- `bb_upper.iloc[-1]` (`timeperiod=20`, `nbdevup=2`). -/
def bbUpperLatest (sq : ℚ → ℚ) (rows : List Row) : Fl :=
  (bbUpperOf sq 20 2 (closesOf rows)).getLastD none

/-- `bb_middle.iloc[-1]`. -/
def bbMiddleLatest (rows : List Row) : Fl :=
  (rollingMean 20 (closesOf rows)).getLastD none

/-- `bb_lower.iloc[-1]` (`nbdevdn=2`). -/
def bbLowerLatest (sq : ℚ → ℚ) (rows : List Row) : Fl :=
  (bbLowerOf sq 20 2 (closesOf rows)).getLastD none

/-- The smoothed `%K` series of the stochastic oscillator. -/
def slowkList (rows : List Row) : List Fl :=
  slowkOfLists 14 3 (highsOf rows) (lowsOf rows) (closesOf rows)

/-- The `%D` series of the stochastic oscillator. -/
def slowdList (rows : List Row) : List Fl :=
  slowdOfLists 14 3 3 (highsOf rows) (lowsOf rows) (closesOf rows)

/-- `latest_stoch_k = float(stoch_k.iloc[-1])`. -/
def latestStochK (rows : List Row) : Fl := (slowkList rows).getLastD none

/-- `prev_stoch_k` with the `len > 1` guard of the source. -/
def prevStochK (rows : List Row) : Fl :=
  if 1 < (slowkList rows).length then (slowkList rows).getD ((slowkList rows).length - 2) none
  else latestStochK rows

/-- `latest_stoch_d = float(stoch_d.iloc[-1])`. -/
def latestStochD (rows : List Row) : Fl := (slowdList rows).getLastD none

/-- `prev_stoch_d` with the `len > 1` guard of the source. -/
def prevStochD (rows : List Row) : Fl :=
  if 1 < (slowdList rows).length then (slowdList rows).getD ((slowdList rows).length - 2) none
  else latestStochD rows

/-- The 5-period moving-average series of the closes. -/
def ma5of (rows : List Row) : List Fl := rollingMean 5 (closesOf rows)

/-- The 20-period moving-average series of the closes. -/
def ma20of (rows : List Row) : List Fl := rollingMean 20 (closesOf rows)

/-- The 50-period moving-average series of the closes. -/
def ma50of (rows : List Row) : List Fl := rollingMean 50 (closesOf rows)

/-- `latest_ma5 = float(ma5.iloc[-1])`. -/
def latestMa5 (rows : List Row) : Fl := (ma5of rows).getLastD none

/-- `latest_ma20 = float(ma20.iloc[-1])`. -/
def latestMa20 (rows : List Row) : Fl := (ma20of rows).getLastD none

/-- `latest_ma50 = float(ma50.iloc[-1]) if len(ma50) > 1 else latest_ma20`. -/
def latestMa50 (rows : List Row) : Fl :=
  if 1 < (ma50of rows).length then (ma50of rows).getLastD none else latestMa20 rows

/-- `prev_ma5` with the `len > 1` guard of the source. -/
def prevMa5 (rows : List Row) : Fl :=
  if 1 < (ma5of rows).length then (ma5of rows).getD ((ma5of rows).length - 2) none
  else latestMa5 rows

/-- `prev_ma20` with the `len > 1` guard of the source. -/
def prevMa20 (rows : List Row) : Fl :=
  if 1 < (ma20of rows).length then (ma20of rows).getD ((ma20of rows).length - 2) none
  else latestMa20 rows

/-- RSI micro-signal: SELL above 70, BUY below 30, else neutral. -/
def rsiSigRaw (rows : List Row) : ℤ :=
  if 70 < rsiLatestOf (closesOf rows) then -1
  else if rsiLatestOf (closesOf rows) < 30 then 1
  else 0

/-- MACD micro-signal: golden/death cross of MACD and signal lines. -/
def macdSigRaw (rows : List Row) : ℤ :=
  if prevMacd rows < prevSigLine rows ∧ latestSigLine rows < latestMacd rows then 1
  else if prevSigLine rows < prevMacd rows ∧ latestMacd rows < latestSigLine rows then -1
  else 0

/-- Bollinger micro-signal: close outside the bands. -/
def bbSigRaw (sq : ℚ → ℚ) (rows : List Row) : ℤ :=
  if flGt (some (latestClose rows)) (bbUpperLatest sq rows) then -1
  else if flLt (some (latestClose rows)) (bbLowerLatest sq rows) then 1
  else 0

/-- Stochastic micro-signal: `%K`/`%D` cross in the oversold/overbought zone. -/
def stochSigRaw (rows : List Row) : ℤ :=
  if flLt (prevStochK rows) (prevStochD rows) && flGt (latestStochK rows) (latestStochD rows)
      && flLt (latestStochK rows) (some 20) then 1
  else if flGt (prevStochK rows) (prevStochD rows) && flLt (latestStochK rows) (latestStochD rows)
      && flGt (latestStochK rows) (some 80) then -1
  else 0

/-- Moving-average micro-signal: 5/20 golden or death cross. -/
def maSigRaw (rows : List Row) : ℤ :=
  if flLt (prevMa5 rows) (prevMa20 rows) && flGt (latestMa5 rows) (latestMa20 rows) then 1
  else if flGt (prevMa5 rows) (prevMa20 rows) && flLt (latestMa5 rows) (latestMa20 rows) then -1
  else 0

/-- `trend_direction = 1 if latest_close > latest_ma50 else -1`. -/
def trendDir (rows : List Row) : ℤ :=
  if flGt (some (latestClose rows)) (latestMa50 rows) then 1 else -1

/-- Trend filtering applied to one micro-signal: in an up-trend a SELL is
forced to neutral, otherwise a BUY is forced to neutral. -/
def suppress (trend s : ℤ) : ℤ :=
  if trend = 1 then (if s = -1 then 0 else s) else (if s = 1 then 0 else s)

/-- `ma_signal` after trend filtering. -/
def maSigF (rows : List Row) : ℤ := suppress (trendDir rows) (maSigRaw rows)

/-- `rsi_signal` after trend filtering. -/
def rsiSigF (rows : List Row) : ℤ := suppress (trendDir rows) (rsiSigRaw rows)

/-- `macd_signal` after trend filtering. -/
def macdSigF (rows : List Row) : ℤ := suppress (trendDir rows) (macdSigRaw rows)

/-- `bb_signal` after trend filtering. -/
def bbSigF (sq : ℚ → ℚ) (rows : List Row) : ℤ := suppress (trendDir rows) (bbSigRaw sq rows)

/-- `stoch_signal` after trend filtering. -/
def stochSigF (rows : List Row) : ℤ := suppress (trendDir rows) (stochSigRaw rows)

/-- A value stored in the signals dict: a Python int or a (possibly NaN)
float. -/
inductive Value where
  | i : ℤ → Value
  | q : Fl → Value
deriving DecidableEq

/-- Ordered association list standing for a Python dict. -/
abbrev PyDict := List (String × Value)

/-- Inserting one binding with Python dict semantics: an existing key keeps
its position and gets the new value, a new key is appended.  (Keys in a dict
are unique, so updating the first match is the Python behaviour.) -/
def insertPy : PyDict → String × Value → PyDict
  | [], kv => [kv]
  | e :: rest, kv => if e.1 == kv.1 then (e.1, kv.2) :: rest else e :: insertPy rest kv

/-- Evaluation of a Python dict literal, duplicate keys included. -/
def pyDict (entries : List (String × Value)) : PyDict := entries.foldl insertPy []

/-- Python `d[k]` as an option. -/
def dlookup (d : PyDict) (k : String) : Option Value :=
  (d.find? (fun e => e.1 == k)).map Prod.snd

/-- Python `d.get(k, v)`. -/
def dgetD (d : PyDict) (k : String) (v : Value) : Value := (dlookup d k).getD v

/-- The dict literal returned when fewer than 30 observations are available
(the duplicated `MACD_Signal` key of the source is kept verbatim). -/
def fallbackEntries (rows : List Row) : List (String × Value) :=
  [("MA_5", Value.q (some (latestClose rows))),
   ("MA_20", Value.q (some (latestClose rows))),
   ("MA_50", Value.q (some (latestClose rows))),
   ("RSI", Value.q (some 50)),
   ("MACD", Value.q (some 0)),
   ("MACD_Signal", Value.q (some 0)),
   ("BB_Upper", Value.q (some (latestClose rows * (102 / 100)))),
   ("BB_Lower", Value.q (some (latestClose rows * (98 / 100)))),
   ("BB_Middle", Value.q (some (latestClose rows))),
   ("Stoch_K", Value.q (some 50)),
   ("Stoch_D", Value.q (some 50)),
   ("Volume", Value.i (latestVolume rows)),
   ("MA_Signal", Value.i 0),
   ("RSI_Signal", Value.i 0),
   ("MACD_Signal", Value.i 0),
   ("BB_Signal", Value.i 0),
   ("Stoch_Signal", Value.i 0)]

/-- The dict literal returned on the full computation path (again with the
source's duplicated `MACD_Signal` key). -/
def fullEntries (sq : ℚ → ℚ) (rows : List Row) : List (String × Value) :=
  [("MA_5", Value.q (latestMa5 rows)),
   ("MA_20", Value.q (latestMa20 rows)),
   ("MA_50", Value.q (latestMa50 rows)),
   ("RSI", Value.q (some (rsiLatestOf (closesOf rows)))),
   ("MACD", Value.q (some (latestMacd rows))),
   ("MACD_Signal", Value.q (some (latestSigLine rows))),
   ("BB_Upper", Value.q (bbUpperLatest sq rows)),
   ("BB_Lower", Value.q (bbLowerLatest sq rows)),
   ("BB_Middle", Value.q (bbMiddleLatest rows)),
   ("Stoch_K", Value.q (latestStochK rows)),
   ("Stoch_D", Value.q (latestStochD rows)),
   ("Volume", Value.i (latestVolume rows)),
   ("MA_Signal", Value.i (maSigF rows)),
   ("RSI_Signal", Value.i (rsiSigF rows)),
   ("MACD_Signal", Value.i (macdSigF rows)),
   ("BB_Signal", Value.i (bbSigF sq rows)),
   ("Stoch_Signal", Value.i (stochSigF rows))]

/-- `calculate_technical_signals` applied to the (already combined and
sorted) series of observations. -/
def techSignalsOn (sq : ℚ → ℚ) (rows : List Row) : PyDict :=
  if (closesOf rows).length < 30 then pyDict (fallbackEntries rows)
  else pyDict (fullEntries sq rows)

/-- The result of `analyze_signals`. -/
structure SigAnalysis where
  signal : String
  confidence : Fl
deriving DecidableEq

/-- Numeric view of a dict value (a Python int is a number too). -/
def toNum : Value → Fl
  | .i z => some (z : ℚ)
  | .q x => x

/-- Python `signal_value != 0`; note that NaN compares unequal to 0. -/
def pyNeZero : Value → Bool
  | .i z => z != 0
  | .q (some x) => x != 0
  | .q none => true

/-- `signal_value * weight` as a possibly-NaN number. -/
def flMulW (v : Value) (w : ℚ) : Fl := (toNum v).map (fun x => x * w)

/-- The fixed voting weights, in the iteration order of the source dict. -/
def voteWeights : List (String × ℚ) :=
  [("MA_Signal", 3 / 10), ("RSI_Signal", 1 / 5), ("MACD_Signal", 1 / 5),
   ("BB_Signal", 3 / 20), ("Stoch_Signal", 3 / 20)]

/-- One iteration of the voting loop of `analyze_signals`. -/
def voteStep (d : PyDict) (acc : Fl × ℚ) (kw : String × ℚ) : Fl × ℚ :=
  if pyNeZero (dgetD d kw.1 (Value.i 0)) then
    (flAdd acc.1 (flMulW (dgetD d kw.1 (Value.i 0)) kw.2), acc.2 + kw.2)
  else acc

/-- `analyze_signals`: weighted voting over the five micro-signals. -/
def analyzeSignals (d : PyDict) : SigAnalysis :=
  let acc := voteWeights.foldl (voteStep d) (some 0, 0)
  { signal :=
      if 0 < acc.2 then
        if flGt acc.1 (some (3 / 10)) then "BUY"
        else if flLt acc.1 (some (-(3 / 10))) then "SELL"
        else "HOLD"
      else "HOLD",
    confidence := if 0 < acc.2 then flAbs acc.1 else some 0 }

/-- The decoded Kinesis payload of one tick. -/
structure StockData where
  symbol : String
  timestamp : ℤ
  openPrice : ℚ
  high : ℚ
  low : ℚ
  close : ℚ
  volume : ℤ
deriving DecidableEq

/-- `stock_data_formatted` turned into a row; it has no timestamp key. -/
def currentRow (s : StockData) : Row :=
  { close := s.close, high := s.high, low := s.low, volume := s.volume, timestamp := none }

/-- `all_data = sorted(historical_data + [current], key=... get('timestamp', 0))`
(Python's sort is stable, as is `List.mergeSort`). -/
def allData (s : StockData) (historical : List Row) : List Row :=
  (historical ++ [currentRow s]).mergeSort
    (fun a b => decide (a.timestamp.getD 0 ≤ b.timestamp.getD 0))

/-- `calculate_technical_signals(stock_data, historical_data)`. -/
def calculateTechnicalSignals (sq : ℚ → ℚ) (s : StockData) (historical : List Row) : PyDict :=
  techSignalsOn sq (allData s historical)

/-- The result record assembled by `lambda_handler` for one Kinesis record. -/
structure ResultRec where
  symbol : String
  timestamp : ℤ
  currentPrice : ℚ
  signal : String
  confidence : Fl
  signals : PyDict
  openPrice : ℚ
  high : ℚ
  low : ℚ
  volume : ℤ
deriving DecidableEq

/-- The `result` dict built in `lambda_handler` before storage. -/
def mkResult (sq : ℚ → ℚ) (s : StockData) (historical : List Row) : ResultRec :=
  let signals := calculateTechnicalSignals sq s historical
  let sa := analyzeSignals signals
  { symbol := s.symbol, timestamp := s.timestamp, currentPrice := s.close,
    signal := sa.signal, confidence := sa.confidence, signals := signals,
    openPrice := s.openPrice, high := s.high, low := s.low, volume := s.volume }

/-- `float_to_decimal` on one value: NaN (and infinities, which the model
conflates with NaN) becomes `Decimal('0')`; everything else is kept. -/
def sanitizeValue : Value → Value
  | .q none => .q (some 0)
  | v => v

/-- `float_to_decimal` applied to the signals dict before `put_item`. -/
def sanitizeDict (d : PyDict) : PyDict := d.map (fun e => (e.1, sanitizeValue e.2))

/-- Score of the Voting Aggregator as the spec words it: the sum of
`signal_i * weight_i` over exactly the non-neutral indicators. -/
def specScore (m r c b s : ℚ) : ℚ :=
  (if m ≠ 0 then m * (3 / 10) else 0) + (if r ≠ 0 then r * (1 / 5) else 0) +
  (if c ≠ 0 then c * (1 / 5) else 0) + (if b ≠ 0 then b * (3 / 20) else 0) +
  (if s ≠ 0 then s * (3 / 20) else 0)

/-- Total weight of the non-neutral indicators, as the spec words it. -/
def specWeight (m r c b s : ℚ) : ℚ :=
  (if m ≠ 0 then (3 : ℚ) / 10 else 0) + (if r ≠ 0 then (1 : ℚ) / 5 else 0) +
  (if c ≠ 0 then (1 : ℚ) / 5 else 0) + (if b ≠ 0 then (3 : ℚ) / 20 else 0) +
  (if s ≠ 0 then (3 : ℚ) / 20 else 0)

/-- Trivial square-root stand-in used for concrete evaluations; on every
input below it is only ever applied to a zero variance, where it agrees with
the true square root. -/
def sq0 : ℚ → ℚ := fun _ => 0

/-- A flat observation at price `c`. -/
def rowC (c : ℚ) : Row :=
  { close := c, high := c, low := c, volume := 1, timestamp := none }

/-- Thirty identical observations: full computation path, zero ranges. -/
def exRows30 : List Row := List.replicate 30 (rowC 100)

/-- A single observation: insufficient-data path. -/
def exRows1 : List Row := [rowC 100]

/-- Twenty-nine flat observations followed by a jump: the MACD and its
signal line are exactly equal one step before the end. -/
def exJump : List Row := List.replicate 29 (rowC 100) ++ [rowC 110]

/-- Fifteen strictly increasing closes: every day-over-day delta is a gain. -/
def exInc : List ℚ := (List.range 15).map (fun i => (i : ℚ) + 1)

/-- A signals mapping with a single BUY moving-average vote. -/
def exDict : PyDict := pyDict [("MA_Signal", Value.i 1)]

/-- The resolved form of the dict literal: the duplicated key keeps its first
position and last value. -/
theorem pyDict_fallback (rows : List Row) :
    pyDict (fallbackEntries rows) =
      [("MA_5", Value.q (some (latestClose rows))),
       ("MA_20", Value.q (some (latestClose rows))),
       ("MA_50", Value.q (some (latestClose rows))),
       ("RSI", Value.q (some 50)),
       ("MACD", Value.q (some 0)),
       ("MACD_Signal", Value.i 0),
       ("BB_Upper", Value.q (some (latestClose rows * (102 / 100)))),
       ("BB_Lower", Value.q (some (latestClose rows * (98 / 100)))),
       ("BB_Middle", Value.q (some (latestClose rows))),
       ("Stoch_K", Value.q (some 50)),
       ("Stoch_D", Value.q (some 50)),
       ("Volume", Value.i (latestVolume rows)),
       ("MA_Signal", Value.i 0),
       ("RSI_Signal", Value.i 0),
       ("BB_Signal", Value.i 0),
       ("Stoch_Signal", Value.i 0)] := by
  simp only [pyDict, fallbackEntries, List.foldl]
  have h0 :
      insertPy []
        ("MA_5", Value.q (some (latestClose rows))) =
      [("MA_5", Value.q (some (latestClose rows)))] := rfl
  have h1 :
      insertPy [("MA_5", Value.q (some (latestClose rows)))]
        ("MA_20", Value.q (some (latestClose rows))) =
      [("MA_5", Value.q (some (latestClose rows))),
      ("MA_20", Value.q (some (latestClose rows)))] := rfl
  have h2 :
      insertPy [("MA_5", Value.q (some (latestClose rows))),
      ("MA_20", Value.q (some (latestClose rows)))]
        ("MA_50", Value.q (some (latestClose rows))) =
      [("MA_5", Value.q (some (latestClose rows))),
      ("MA_20", Value.q (some (latestClose rows))),
      ("MA_50", Value.q (some (latestClose rows)))] := rfl
  have h3 :
      insertPy [("MA_5", Value.q (some (latestClose rows))),
      ("MA_20", Value.q (some (latestClose rows))),
      ("MA_50", Value.q (some (latestClose rows)))]
        ("RSI", Value.q (some 50)) =
      [("MA_5", Value.q (some (latestClose rows))),
      ("MA_20", Value.q (some (latestClose rows))),
      ("MA_50", Value.q (some (latestClose rows))),
      ("RSI", Value.q (some 50))] := rfl
  have h4 :
      insertPy [("MA_5", Value.q (some (latestClose rows))),
      ("MA_20", Value.q (some (latestClose rows))),
      ("MA_50", Value.q (some (latestClose rows))),
      ("RSI", Value.q (some 50))]
        ("MACD", Value.q (some 0)) =
      [("MA_5", Value.q (some (latestClose rows))),
      ("MA_20", Value.q (some (latestClose rows))),
      ("MA_50", Value.q (some (latestClose rows))),
      ("RSI", Value.q (some 50)),
      ("MACD", Value.q (some 0))] := rfl
  have h5 :
      insertPy [("MA_5", Value.q (some (latestClose rows))),
      ("MA_20", Value.q (some (latestClose rows))),
      ("MA_50", Value.q (some (latestClose rows))),
      ("RSI", Value.q (some 50)),
      ("MACD", Value.q (some 0))]
        ("MACD_Signal", Value.q (some 0)) =
      [("MA_5", Value.q (some (latestClose rows))),
      ("MA_20", Value.q (some (latestClose rows))),
      ("MA_50", Value.q (some (latestClose rows))),
      ("RSI", Value.q (some 50)),
      ("MACD", Value.q (some 0)),
      ("MACD_Signal", Value.q (some 0))] := rfl
  have h6 :
      insertPy [("MA_5", Value.q (some (latestClose rows))),
      ("MA_20", Value.q (some (latestClose rows))),
      ("MA_50", Value.q (some (latestClose rows))),
      ("RSI", Value.q (some 50)),
      ("MACD", Value.q (some 0)),
      ("MACD_Signal", Value.q (some 0))]
        ("BB_Upper", Value.q (some (latestClose rows * (102 / 100)))) =
      [("MA_5", Value.q (some (latestClose rows))),
      ("MA_20", Value.q (some (latestClose rows))),
      ("MA_50", Value.q (some (latestClose rows))),
      ("RSI", Value.q (some 50)),
      ("MACD", Value.q (some 0)),
      ("MACD_Signal", Value.q (some 0)),
      ("BB_Upper", Value.q (some (latestClose rows * (102 / 100))))] := rfl
  have h7 :
      insertPy [("MA_5", Value.q (some (latestClose rows))),
      ("MA_20", Value.q (some (latestClose rows))),
      ("MA_50", Value.q (some (latestClose rows))),
      ("RSI", Value.q (some 50)),
      ("MACD", Value.q (some 0)),
      ("MACD_Signal", Value.q (some 0)),
      ("BB_Upper", Value.q (some (latestClose rows * (102 / 100))))]
        ("BB_Lower", Value.q (some (latestClose rows * (98 / 100)))) =
      [("MA_5", Value.q (some (latestClose rows))),
      ("MA_20", Value.q (some (latestClose rows))),
      ("MA_50", Value.q (some (latestClose rows))),
      ("RSI", Value.q (some 50)),
      ("MACD", Value.q (some 0)),
      ("MACD_Signal", Value.q (some 0)),
      ("BB_Upper", Value.q (some (latestClose rows * (102 / 100)))),
      ("BB_Lower", Value.q (some (latestClose rows * (98 / 100))))] := rfl
  have h8 :
      insertPy [("MA_5", Value.q (some (latestClose rows))),
      ("MA_20", Value.q (some (latestClose rows))),
      ("MA_50", Value.q (some (latestClose rows))),
      ("RSI", Value.q (some 50)),
      ("MACD", Value.q (some 0)),
      ("MACD_Signal", Value.q (some 0)),
      ("BB_Upper", Value.q (some (latestClose rows * (102 / 100)))),
      ("BB_Lower", Value.q (some (latestClose rows * (98 / 100))))]
        ("BB_Middle", Value.q (some (latestClose rows))) =
      [("MA_5", Value.q (some (latestClose rows))),
      ("MA_20", Value.q (some (latestClose rows))),
      ("MA_50", Value.q (some (latestClose rows))),
      ("RSI", Value.q (some 50)),
      ("MACD", Value.q (some 0)),
      ("MACD_Signal", Value.q (some 0)),
      ("BB_Upper", Value.q (some (latestClose rows * (102 / 100)))),
      ("BB_Lower", Value.q (some (latestClose rows * (98 / 100)))),
      ("BB_Middle", Value.q (some (latestClose rows)))] := rfl
  have h9 :
      insertPy [("MA_5", Value.q (some (latestClose rows))),
      ("MA_20", Value.q (some (latestClose rows))),
      ("MA_50", Value.q (some (latestClose rows))),
      ("RSI", Value.q (some 50)),
      ("MACD", Value.q (some 0)),
      ("MACD_Signal", Value.q (some 0)),
      ("BB_Upper", Value.q (some (latestClose rows * (102 / 100)))),
      ("BB_Lower", Value.q (some (latestClose rows * (98 / 100)))),
      ("BB_Middle", Value.q (some (latestClose rows)))]
        ("Stoch_K", Value.q (some 50)) =
      [("MA_5", Value.q (some (latestClose rows))),
      ("MA_20", Value.q (some (latestClose rows))),
      ("MA_50", Value.q (some (latestClose rows))),
      ("RSI", Value.q (some 50)),
      ("MACD", Value.q (some 0)),
      ("MACD_Signal", Value.q (some 0)),
      ("BB_Upper", Value.q (some (latestClose rows * (102 / 100)))),
      ("BB_Lower", Value.q (some (latestClose rows * (98 / 100)))),
      ("BB_Middle", Value.q (some (latestClose rows))),
      ("Stoch_K", Value.q (some 50))] := rfl
  have h10 :
      insertPy [("MA_5", Value.q (some (latestClose rows))),
      ("MA_20", Value.q (some (latestClose rows))),
      ("MA_50", Value.q (some (latestClose rows))),
      ("RSI", Value.q (some 50)),
      ("MACD", Value.q (some 0)),
      ("MACD_Signal", Value.q (some 0)),
      ("BB_Upper", Value.q (some (latestClose rows * (102 / 100)))),
      ("BB_Lower", Value.q (some (latestClose rows * (98 / 100)))),
      ("BB_Middle", Value.q (some (latestClose rows))),
      ("Stoch_K", Value.q (some 50))]
        ("Stoch_D", Value.q (some 50)) =
      [("MA_5", Value.q (some (latestClose rows))),
      ("MA_20", Value.q (some (latestClose rows))),
      ("MA_50", Value.q (some (latestClose rows))),
      ("RSI", Value.q (some 50)),
      ("MACD", Value.q (some 0)),
      ("MACD_Signal", Value.q (some 0)),
      ("BB_Upper", Value.q (some (latestClose rows * (102 / 100)))),
      ("BB_Lower", Value.q (some (latestClose rows * (98 / 100)))),
      ("BB_Middle", Value.q (some (latestClose rows))),
      ("Stoch_K", Value.q (some 50)),
      ("Stoch_D", Value.q (some 50))] := rfl
  have h11 :
      insertPy [("MA_5", Value.q (some (latestClose rows))),
      ("MA_20", Value.q (some (latestClose rows))),
      ("MA_50", Value.q (some (latestClose rows))),
      ("RSI", Value.q (some 50)),
      ("MACD", Value.q (some 0)),
      ("MACD_Signal", Value.q (some 0)),
      ("BB_Upper", Value.q (some (latestClose rows * (102 / 100)))),
      ("BB_Lower", Value.q (some (latestClose rows * (98 / 100)))),
      ("BB_Middle", Value.q (some (latestClose rows))),
      ("Stoch_K", Value.q (some 50)),
      ("Stoch_D", Value.q (some 50))]
        ("Volume", Value.i (latestVolume rows)) =
      [("MA_5", Value.q (some (latestClose rows))),
      ("MA_20", Value.q (some (latestClose rows))),
      ("MA_50", Value.q (some (latestClose rows))),
      ("RSI", Value.q (some 50)),
      ("MACD", Value.q (some 0)),
      ("MACD_Signal", Value.q (some 0)),
      ("BB_Upper", Value.q (some (latestClose rows * (102 / 100)))),
      ("BB_Lower", Value.q (some (latestClose rows * (98 / 100)))),
      ("BB_Middle", Value.q (some (latestClose rows))),
      ("Stoch_K", Value.q (some 50)),
      ("Stoch_D", Value.q (some 50)),
      ("Volume", Value.i (latestVolume rows))] := rfl
  have h12 :
      insertPy [("MA_5", Value.q (some (latestClose rows))),
      ("MA_20", Value.q (some (latestClose rows))),
      ("MA_50", Value.q (some (latestClose rows))),
      ("RSI", Value.q (some 50)),
      ("MACD", Value.q (some 0)),
      ("MACD_Signal", Value.q (some 0)),
      ("BB_Upper", Value.q (some (latestClose rows * (102 / 100)))),
      ("BB_Lower", Value.q (some (latestClose rows * (98 / 100)))),
      ("BB_Middle", Value.q (some (latestClose rows))),
      ("Stoch_K", Value.q (some 50)),
      ("Stoch_D", Value.q (some 50)),
      ("Volume", Value.i (latestVolume rows))]
        ("MA_Signal", Value.i 0) =
      [("MA_5", Value.q (some (latestClose rows))),
      ("MA_20", Value.q (some (latestClose rows))),
      ("MA_50", Value.q (some (latestClose rows))),
      ("RSI", Value.q (some 50)),
      ("MACD", Value.q (some 0)),
      ("MACD_Signal", Value.q (some 0)),
      ("BB_Upper", Value.q (some (latestClose rows * (102 / 100)))),
      ("BB_Lower", Value.q (some (latestClose rows * (98 / 100)))),
      ("BB_Middle", Value.q (some (latestClose rows))),
      ("Stoch_K", Value.q (some 50)),
      ("Stoch_D", Value.q (some 50)),
      ("Volume", Value.i (latestVolume rows)),
      ("MA_Signal", Value.i 0)] := rfl
  have h13 :
      insertPy [("MA_5", Value.q (some (latestClose rows))),
      ("MA_20", Value.q (some (latestClose rows))),
      ("MA_50", Value.q (some (latestClose rows))),
      ("RSI", Value.q (some 50)),
      ("MACD", Value.q (some 0)),
      ("MACD_Signal", Value.q (some 0)),
      ("BB_Upper", Value.q (some (latestClose rows * (102 / 100)))),
      ("BB_Lower", Value.q (some (latestClose rows * (98 / 100)))),
      ("BB_Middle", Value.q (some (latestClose rows))),
      ("Stoch_K", Value.q (some 50)),
      ("Stoch_D", Value.q (some 50)),
      ("Volume", Value.i (latestVolume rows)),
      ("MA_Signal", Value.i 0)]
        ("RSI_Signal", Value.i 0) =
      [("MA_5", Value.q (some (latestClose rows))),
      ("MA_20", Value.q (some (latestClose rows))),
      ("MA_50", Value.q (some (latestClose rows))),
      ("RSI", Value.q (some 50)),
      ("MACD", Value.q (some 0)),
      ("MACD_Signal", Value.q (some 0)),
      ("BB_Upper", Value.q (some (latestClose rows * (102 / 100)))),
      ("BB_Lower", Value.q (some (latestClose rows * (98 / 100)))),
      ("BB_Middle", Value.q (some (latestClose rows))),
      ("Stoch_K", Value.q (some 50)),
      ("Stoch_D", Value.q (some 50)),
      ("Volume", Value.i (latestVolume rows)),
      ("MA_Signal", Value.i 0),
      ("RSI_Signal", Value.i 0)] := rfl
  have h14 :
      insertPy [("MA_5", Value.q (some (latestClose rows))),
      ("MA_20", Value.q (some (latestClose rows))),
      ("MA_50", Value.q (some (latestClose rows))),
      ("RSI", Value.q (some 50)),
      ("MACD", Value.q (some 0)),
      ("MACD_Signal", Value.q (some 0)),
      ("BB_Upper", Value.q (some (latestClose rows * (102 / 100)))),
      ("BB_Lower", Value.q (some (latestClose rows * (98 / 100)))),
      ("BB_Middle", Value.q (some (latestClose rows))),
      ("Stoch_K", Value.q (some 50)),
      ("Stoch_D", Value.q (some 50)),
      ("Volume", Value.i (latestVolume rows)),
      ("MA_Signal", Value.i 0),
      ("RSI_Signal", Value.i 0)]
        ("MACD_Signal", Value.i 0) =
      [("MA_5", Value.q (some (latestClose rows))),
      ("MA_20", Value.q (some (latestClose rows))),
      ("MA_50", Value.q (some (latestClose rows))),
      ("RSI", Value.q (some 50)),
      ("MACD", Value.q (some 0)),
      ("MACD_Signal", Value.i 0),
      ("BB_Upper", Value.q (some (latestClose rows * (102 / 100)))),
      ("BB_Lower", Value.q (some (latestClose rows * (98 / 100)))),
      ("BB_Middle", Value.q (some (latestClose rows))),
      ("Stoch_K", Value.q (some 50)),
      ("Stoch_D", Value.q (some 50)),
      ("Volume", Value.i (latestVolume rows)),
      ("MA_Signal", Value.i 0),
      ("RSI_Signal", Value.i 0)] := rfl
  have h15 :
      insertPy [("MA_5", Value.q (some (latestClose rows))),
      ("MA_20", Value.q (some (latestClose rows))),
      ("MA_50", Value.q (some (latestClose rows))),
      ("RSI", Value.q (some 50)),
      ("MACD", Value.q (some 0)),
      ("MACD_Signal", Value.i 0),
      ("BB_Upper", Value.q (some (latestClose rows * (102 / 100)))),
      ("BB_Lower", Value.q (some (latestClose rows * (98 / 100)))),
      ("BB_Middle", Value.q (some (latestClose rows))),
      ("Stoch_K", Value.q (some 50)),
      ("Stoch_D", Value.q (some 50)),
      ("Volume", Value.i (latestVolume rows)),
      ("MA_Signal", Value.i 0),
      ("RSI_Signal", Value.i 0)]
        ("BB_Signal", Value.i 0) =
      [("MA_5", Value.q (some (latestClose rows))),
      ("MA_20", Value.q (some (latestClose rows))),
      ("MA_50", Value.q (some (latestClose rows))),
      ("RSI", Value.q (some 50)),
      ("MACD", Value.q (some 0)),
      ("MACD_Signal", Value.i 0),
      ("BB_Upper", Value.q (some (latestClose rows * (102 / 100)))),
      ("BB_Lower", Value.q (some (latestClose rows * (98 / 100)))),
      ("BB_Middle", Value.q (some (latestClose rows))),
      ("Stoch_K", Value.q (some 50)),
      ("Stoch_D", Value.q (some 50)),
      ("Volume", Value.i (latestVolume rows)),
      ("MA_Signal", Value.i 0),
      ("RSI_Signal", Value.i 0),
      ("BB_Signal", Value.i 0)] := rfl
  have h16 :
      insertPy [("MA_5", Value.q (some (latestClose rows))),
      ("MA_20", Value.q (some (latestClose rows))),
      ("MA_50", Value.q (some (latestClose rows))),
      ("RSI", Value.q (some 50)),
      ("MACD", Value.q (some 0)),
      ("MACD_Signal", Value.i 0),
      ("BB_Upper", Value.q (some (latestClose rows * (102 / 100)))),
      ("BB_Lower", Value.q (some (latestClose rows * (98 / 100)))),
      ("BB_Middle", Value.q (some (latestClose rows))),
      ("Stoch_K", Value.q (some 50)),
      ("Stoch_D", Value.q (some 50)),
      ("Volume", Value.i (latestVolume rows)),
      ("MA_Signal", Value.i 0),
      ("RSI_Signal", Value.i 0),
      ("BB_Signal", Value.i 0)]
        ("Stoch_Signal", Value.i 0) =
      [("MA_5", Value.q (some (latestClose rows))),
      ("MA_20", Value.q (some (latestClose rows))),
      ("MA_50", Value.q (some (latestClose rows))),
      ("RSI", Value.q (some 50)),
      ("MACD", Value.q (some 0)),
      ("MACD_Signal", Value.i 0),
      ("BB_Upper", Value.q (some (latestClose rows * (102 / 100)))),
      ("BB_Lower", Value.q (some (latestClose rows * (98 / 100)))),
      ("BB_Middle", Value.q (some (latestClose rows))),
      ("Stoch_K", Value.q (some 50)),
      ("Stoch_D", Value.q (some 50)),
      ("Volume", Value.i (latestVolume rows)),
      ("MA_Signal", Value.i 0),
      ("RSI_Signal", Value.i 0),
      ("BB_Signal", Value.i 0),
      ("Stoch_Signal", Value.i 0)] := rfl
  rw [h0, h1, h2, h3, h4, h5, h6, h7, h8, h9, h10, h11, h12, h13, h14, h15, h16]

/-- The resolved form of the dict literal: the duplicated key keeps its first
position and last value. -/
theorem pyDict_full (sq : ℚ → ℚ) (rows : List Row) :
    pyDict (fullEntries sq rows) =
      [("MA_5", Value.q (latestMa5 rows)),
       ("MA_20", Value.q (latestMa20 rows)),
       ("MA_50", Value.q (latestMa50 rows)),
       ("RSI", Value.q (some (rsiLatestOf (closesOf rows)))),
       ("MACD", Value.q (some (latestMacd rows))),
       ("MACD_Signal", Value.i (macdSigF rows)),
       ("BB_Upper", Value.q (bbUpperLatest sq rows)),
       ("BB_Lower", Value.q (bbLowerLatest sq rows)),
       ("BB_Middle", Value.q (bbMiddleLatest rows)),
       ("Stoch_K", Value.q (latestStochK rows)),
       ("Stoch_D", Value.q (latestStochD rows)),
       ("Volume", Value.i (latestVolume rows)),
       ("MA_Signal", Value.i (maSigF rows)),
       ("RSI_Signal", Value.i (rsiSigF rows)),
       ("BB_Signal", Value.i (bbSigF sq rows)),
       ("Stoch_Signal", Value.i (stochSigF rows))] := by
  simp only [pyDict, fullEntries, List.foldl]
  have h0 :
      insertPy []
        ("MA_5", Value.q (latestMa5 rows)) =
      [("MA_5", Value.q (latestMa5 rows))] := rfl
  have h1 :
      insertPy [("MA_5", Value.q (latestMa5 rows))]
        ("MA_20", Value.q (latestMa20 rows)) =
      [("MA_5", Value.q (latestMa5 rows)),
      ("MA_20", Value.q (latestMa20 rows))] := rfl
  have h2 :
      insertPy [("MA_5", Value.q (latestMa5 rows)),
      ("MA_20", Value.q (latestMa20 rows))]
        ("MA_50", Value.q (latestMa50 rows)) =
      [("MA_5", Value.q (latestMa5 rows)),
      ("MA_20", Value.q (latestMa20 rows)),
      ("MA_50", Value.q (latestMa50 rows))] := rfl
  have h3 :
      insertPy [("MA_5", Value.q (latestMa5 rows)),
      ("MA_20", Value.q (latestMa20 rows)),
      ("MA_50", Value.q (latestMa50 rows))]
        ("RSI", Value.q (some (rsiLatestOf (closesOf rows)))) =
      [("MA_5", Value.q (latestMa5 rows)),
      ("MA_20", Value.q (latestMa20 rows)),
      ("MA_50", Value.q (latestMa50 rows)),
      ("RSI", Value.q (some (rsiLatestOf (closesOf rows))))] := rfl
  have h4 :
      insertPy [("MA_5", Value.q (latestMa5 rows)),
      ("MA_20", Value.q (latestMa20 rows)),
      ("MA_50", Value.q (latestMa50 rows)),
      ("RSI", Value.q (some (rsiLatestOf (closesOf rows))))]
        ("MACD", Value.q (some (latestMacd rows))) =
      [("MA_5", Value.q (latestMa5 rows)),
      ("MA_20", Value.q (latestMa20 rows)),
      ("MA_50", Value.q (latestMa50 rows)),
      ("RSI", Value.q (some (rsiLatestOf (closesOf rows)))),
      ("MACD", Value.q (some (latestMacd rows)))] := rfl
  have h5 :
      insertPy [("MA_5", Value.q (latestMa5 rows)),
      ("MA_20", Value.q (latestMa20 rows)),
      ("MA_50", Value.q (latestMa50 rows)),
      ("RSI", Value.q (some (rsiLatestOf (closesOf rows)))),
      ("MACD", Value.q (some (latestMacd rows)))]
        ("MACD_Signal", Value.q (some (latestSigLine rows))) =
      [("MA_5", Value.q (latestMa5 rows)),
      ("MA_20", Value.q (latestMa20 rows)),
      ("MA_50", Value.q (latestMa50 rows)),
      ("RSI", Value.q (some (rsiLatestOf (closesOf rows)))),
      ("MACD", Value.q (some (latestMacd rows))),
      ("MACD_Signal", Value.q (some (latestSigLine rows)))] := rfl
  have h6 :
      insertPy [("MA_5", Value.q (latestMa5 rows)),
      ("MA_20", Value.q (latestMa20 rows)),
      ("MA_50", Value.q (latestMa50 rows)),
      ("RSI", Value.q (some (rsiLatestOf (closesOf rows)))),
      ("MACD", Value.q (some (latestMacd rows))),
      ("MACD_Signal", Value.q (some (latestSigLine rows)))]
        ("BB_Upper", Value.q (bbUpperLatest sq rows)) =
      [("MA_5", Value.q (latestMa5 rows)),
      ("MA_20", Value.q (latestMa20 rows)),
      ("MA_50", Value.q (latestMa50 rows)),
      ("RSI", Value.q (some (rsiLatestOf (closesOf rows)))),
      ("MACD", Value.q (some (latestMacd rows))),
      ("MACD_Signal", Value.q (some (latestSigLine rows))),
      ("BB_Upper", Value.q (bbUpperLatest sq rows))] := rfl
  have h7 :
      insertPy [("MA_5", Value.q (latestMa5 rows)),
      ("MA_20", Value.q (latestMa20 rows)),
      ("MA_50", Value.q (latestMa50 rows)),
      ("RSI", Value.q (some (rsiLatestOf (closesOf rows)))),
      ("MACD", Value.q (some (latestMacd rows))),
      ("MACD_Signal", Value.q (some (latestSigLine rows))),
      ("BB_Upper", Value.q (bbUpperLatest sq rows))]
        ("BB_Lower", Value.q (bbLowerLatest sq rows)) =
      [("MA_5", Value.q (latestMa5 rows)),
      ("MA_20", Value.q (latestMa20 rows)),
      ("MA_50", Value.q (latestMa50 rows)),
      ("RSI", Value.q (some (rsiLatestOf (closesOf rows)))),
      ("MACD", Value.q (some (latestMacd rows))),
      ("MACD_Signal", Value.q (some (latestSigLine rows))),
      ("BB_Upper", Value.q (bbUpperLatest sq rows)),
      ("BB_Lower", Value.q (bbLowerLatest sq rows))] := rfl
  have h8 :
      insertPy [("MA_5", Value.q (latestMa5 rows)),
      ("MA_20", Value.q (latestMa20 rows)),
      ("MA_50", Value.q (latestMa50 rows)),
      ("RSI", Value.q (some (rsiLatestOf (closesOf rows)))),
      ("MACD", Value.q (some (latestMacd rows))),
      ("MACD_Signal", Value.q (some (latestSigLine rows))),
      ("BB_Upper", Value.q (bbUpperLatest sq rows)),
      ("BB_Lower", Value.q (bbLowerLatest sq rows))]
        ("BB_Middle", Value.q (bbMiddleLatest rows)) =
      [("MA_5", Value.q (latestMa5 rows)),
      ("MA_20", Value.q (latestMa20 rows)),
      ("MA_50", Value.q (latestMa50 rows)),
      ("RSI", Value.q (some (rsiLatestOf (closesOf rows)))),
      ("MACD", Value.q (some (latestMacd rows))),
      ("MACD_Signal", Value.q (some (latestSigLine rows))),
      ("BB_Upper", Value.q (bbUpperLatest sq rows)),
      ("BB_Lower", Value.q (bbLowerLatest sq rows)),
      ("BB_Middle", Value.q (bbMiddleLatest rows))] := rfl
  have h9 :
      insertPy [("MA_5", Value.q (latestMa5 rows)),
      ("MA_20", Value.q (latestMa20 rows)),
      ("MA_50", Value.q (latestMa50 rows)),
      ("RSI", Value.q (some (rsiLatestOf (closesOf rows)))),
      ("MACD", Value.q (some (latestMacd rows))),
      ("MACD_Signal", Value.q (some (latestSigLine rows))),
      ("BB_Upper", Value.q (bbUpperLatest sq rows)),
      ("BB_Lower", Value.q (bbLowerLatest sq rows)),
      ("BB_Middle", Value.q (bbMiddleLatest rows))]
        ("Stoch_K", Value.q (latestStochK rows)) =
      [("MA_5", Value.q (latestMa5 rows)),
      ("MA_20", Value.q (latestMa20 rows)),
      ("MA_50", Value.q (latestMa50 rows)),
      ("RSI", Value.q (some (rsiLatestOf (closesOf rows)))),
      ("MACD", Value.q (some (latestMacd rows))),
      ("MACD_Signal", Value.q (some (latestSigLine rows))),
      ("BB_Upper", Value.q (bbUpperLatest sq rows)),
      ("BB_Lower", Value.q (bbLowerLatest sq rows)),
      ("BB_Middle", Value.q (bbMiddleLatest rows)),
      ("Stoch_K", Value.q (latestStochK rows))] := rfl
  have h10 :
      insertPy [("MA_5", Value.q (latestMa5 rows)),
      ("MA_20", Value.q (latestMa20 rows)),
      ("MA_50", Value.q (latestMa50 rows)),
      ("RSI", Value.q (some (rsiLatestOf (closesOf rows)))),
      ("MACD", Value.q (some (latestMacd rows))),
      ("MACD_Signal", Value.q (some (latestSigLine rows))),
      ("BB_Upper", Value.q (bbUpperLatest sq rows)),
      ("BB_Lower", Value.q (bbLowerLatest sq rows)),
      ("BB_Middle", Value.q (bbMiddleLatest rows)),
      ("Stoch_K", Value.q (latestStochK rows))]
        ("Stoch_D", Value.q (latestStochD rows)) =
      [("MA_5", Value.q (latestMa5 rows)),
      ("MA_20", Value.q (latestMa20 rows)),
      ("MA_50", Value.q (latestMa50 rows)),
      ("RSI", Value.q (some (rsiLatestOf (closesOf rows)))),
      ("MACD", Value.q (some (latestMacd rows))),
      ("MACD_Signal", Value.q (some (latestSigLine rows))),
      ("BB_Upper", Value.q (bbUpperLatest sq rows)),
      ("BB_Lower", Value.q (bbLowerLatest sq rows)),
      ("BB_Middle", Value.q (bbMiddleLatest rows)),
      ("Stoch_K", Value.q (latestStochK rows)),
      ("Stoch_D", Value.q (latestStochD rows))] := rfl
  have h11 :
      insertPy [("MA_5", Value.q (latestMa5 rows)),
      ("MA_20", Value.q (latestMa20 rows)),
      ("MA_50", Value.q (latestMa50 rows)),
      ("RSI", Value.q (some (rsiLatestOf (closesOf rows)))),
      ("MACD", Value.q (some (latestMacd rows))),
      ("MACD_Signal", Value.q (some (latestSigLine rows))),
      ("BB_Upper", Value.q (bbUpperLatest sq rows)),
      ("BB_Lower", Value.q (bbLowerLatest sq rows)),
      ("BB_Middle", Value.q (bbMiddleLatest rows)),
      ("Stoch_K", Value.q (latestStochK rows)),
      ("Stoch_D", Value.q (latestStochD rows))]
        ("Volume", Value.i (latestVolume rows)) =
      [("MA_5", Value.q (latestMa5 rows)),
      ("MA_20", Value.q (latestMa20 rows)),
      ("MA_50", Value.q (latestMa50 rows)),
      ("RSI", Value.q (some (rsiLatestOf (closesOf rows)))),
      ("MACD", Value.q (some (latestMacd rows))),
      ("MACD_Signal", Value.q (some (latestSigLine rows))),
      ("BB_Upper", Value.q (bbUpperLatest sq rows)),
      ("BB_Lower", Value.q (bbLowerLatest sq rows)),
      ("BB_Middle", Value.q (bbMiddleLatest rows)),
      ("Stoch_K", Value.q (latestStochK rows)),
      ("Stoch_D", Value.q (latestStochD rows)),
      ("Volume", Value.i (latestVolume rows))] := rfl
  have h12 :
      insertPy [("MA_5", Value.q (latestMa5 rows)),
      ("MA_20", Value.q (latestMa20 rows)),
      ("MA_50", Value.q (latestMa50 rows)),
      ("RSI", Value.q (some (rsiLatestOf (closesOf rows)))),
      ("MACD", Value.q (some (latestMacd rows))),
      ("MACD_Signal", Value.q (some (latestSigLine rows))),
      ("BB_Upper", Value.q (bbUpperLatest sq rows)),
      ("BB_Lower", Value.q (bbLowerLatest sq rows)),
      ("BB_Middle", Value.q (bbMiddleLatest rows)),
      ("Stoch_K", Value.q (latestStochK rows)),
      ("Stoch_D", Value.q (latestStochD rows)),
      ("Volume", Value.i (latestVolume rows))]
        ("MA_Signal", Value.i (maSigF rows)) =
      [("MA_5", Value.q (latestMa5 rows)),
      ("MA_20", Value.q (latestMa20 rows)),
      ("MA_50", Value.q (latestMa50 rows)),
      ("RSI", Value.q (some (rsiLatestOf (closesOf rows)))),
      ("MACD", Value.q (some (latestMacd rows))),
      ("MACD_Signal", Value.q (some (latestSigLine rows))),
      ("BB_Upper", Value.q (bbUpperLatest sq rows)),
      ("BB_Lower", Value.q (bbLowerLatest sq rows)),
      ("BB_Middle", Value.q (bbMiddleLatest rows)),
      ("Stoch_K", Value.q (latestStochK rows)),
      ("Stoch_D", Value.q (latestStochD rows)),
      ("Volume", Value.i (latestVolume rows)),
      ("MA_Signal", Value.i (maSigF rows))] := rfl
  have h13 :
      insertPy [("MA_5", Value.q (latestMa5 rows)),
      ("MA_20", Value.q (latestMa20 rows)),
      ("MA_50", Value.q (latestMa50 rows)),
      ("RSI", Value.q (some (rsiLatestOf (closesOf rows)))),
      ("MACD", Value.q (some (latestMacd rows))),
      ("MACD_Signal", Value.q (some (latestSigLine rows))),
      ("BB_Upper", Value.q (bbUpperLatest sq rows)),
      ("BB_Lower", Value.q (bbLowerLatest sq rows)),
      ("BB_Middle", Value.q (bbMiddleLatest rows)),
      ("Stoch_K", Value.q (latestStochK rows)),
      ("Stoch_D", Value.q (latestStochD rows)),
      ("Volume", Value.i (latestVolume rows)),
      ("MA_Signal", Value.i (maSigF rows))]
        ("RSI_Signal", Value.i (rsiSigF rows)) =
      [("MA_5", Value.q (latestMa5 rows)),
      ("MA_20", Value.q (latestMa20 rows)),
      ("MA_50", Value.q (latestMa50 rows)),
      ("RSI", Value.q (some (rsiLatestOf (closesOf rows)))),
      ("MACD", Value.q (some (latestMacd rows))),
      ("MACD_Signal", Value.q (some (latestSigLine rows))),
      ("BB_Upper", Value.q (bbUpperLatest sq rows)),
      ("BB_Lower", Value.q (bbLowerLatest sq rows)),
      ("BB_Middle", Value.q (bbMiddleLatest rows)),
      ("Stoch_K", Value.q (latestStochK rows)),
      ("Stoch_D", Value.q (latestStochD rows)),
      ("Volume", Value.i (latestVolume rows)),
      ("MA_Signal", Value.i (maSigF rows)),
      ("RSI_Signal", Value.i (rsiSigF rows))] := rfl
  have h14 :
      insertPy [("MA_5", Value.q (latestMa5 rows)),
      ("MA_20", Value.q (latestMa20 rows)),
      ("MA_50", Value.q (latestMa50 rows)),
      ("RSI", Value.q (some (rsiLatestOf (closesOf rows)))),
      ("MACD", Value.q (some (latestMacd rows))),
      ("MACD_Signal", Value.q (some (latestSigLine rows))),
      ("BB_Upper", Value.q (bbUpperLatest sq rows)),
      ("BB_Lower", Value.q (bbLowerLatest sq rows)),
      ("BB_Middle", Value.q (bbMiddleLatest rows)),
      ("Stoch_K", Value.q (latestStochK rows)),
      ("Stoch_D", Value.q (latestStochD rows)),
      ("Volume", Value.i (latestVolume rows)),
      ("MA_Signal", Value.i (maSigF rows)),
      ("RSI_Signal", Value.i (rsiSigF rows))]
        ("MACD_Signal", Value.i (macdSigF rows)) =
      [("MA_5", Value.q (latestMa5 rows)),
      ("MA_20", Value.q (latestMa20 rows)),
      ("MA_50", Value.q (latestMa50 rows)),
      ("RSI", Value.q (some (rsiLatestOf (closesOf rows)))),
      ("MACD", Value.q (some (latestMacd rows))),
      ("MACD_Signal", Value.i (macdSigF rows)),
      ("BB_Upper", Value.q (bbUpperLatest sq rows)),
      ("BB_Lower", Value.q (bbLowerLatest sq rows)),
      ("BB_Middle", Value.q (bbMiddleLatest rows)),
      ("Stoch_K", Value.q (latestStochK rows)),
      ("Stoch_D", Value.q (latestStochD rows)),
      ("Volume", Value.i (latestVolume rows)),
      ("MA_Signal", Value.i (maSigF rows)),
      ("RSI_Signal", Value.i (rsiSigF rows))] := rfl
  have h15 :
      insertPy [("MA_5", Value.q (latestMa5 rows)),
      ("MA_20", Value.q (latestMa20 rows)),
      ("MA_50", Value.q (latestMa50 rows)),
      ("RSI", Value.q (some (rsiLatestOf (closesOf rows)))),
      ("MACD", Value.q (some (latestMacd rows))),
      ("MACD_Signal", Value.i (macdSigF rows)),
      ("BB_Upper", Value.q (bbUpperLatest sq rows)),
      ("BB_Lower", Value.q (bbLowerLatest sq rows)),
      ("BB_Middle", Value.q (bbMiddleLatest rows)),
      ("Stoch_K", Value.q (latestStochK rows)),
      ("Stoch_D", Value.q (latestStochD rows)),
      ("Volume", Value.i (latestVolume rows)),
      ("MA_Signal", Value.i (maSigF rows)),
      ("RSI_Signal", Value.i (rsiSigF rows))]
        ("BB_Signal", Value.i (bbSigF sq rows)) =
      [("MA_5", Value.q (latestMa5 rows)),
      ("MA_20", Value.q (latestMa20 rows)),
      ("MA_50", Value.q (latestMa50 rows)),
      ("RSI", Value.q (some (rsiLatestOf (closesOf rows)))),
      ("MACD", Value.q (some (latestMacd rows))),
      ("MACD_Signal", Value.i (macdSigF rows)),
      ("BB_Upper", Value.q (bbUpperLatest sq rows)),
      ("BB_Lower", Value.q (bbLowerLatest sq rows)),
      ("BB_Middle", Value.q (bbMiddleLatest rows)),
      ("Stoch_K", Value.q (latestStochK rows)),
      ("Stoch_D", Value.q (latestStochD rows)),
      ("Volume", Value.i (latestVolume rows)),
      ("MA_Signal", Value.i (maSigF rows)),
      ("RSI_Signal", Value.i (rsiSigF rows)),
      ("BB_Signal", Value.i (bbSigF sq rows))] := rfl
  have h16 :
      insertPy [("MA_5", Value.q (latestMa5 rows)),
      ("MA_20", Value.q (latestMa20 rows)),
      ("MA_50", Value.q (latestMa50 rows)),
      ("RSI", Value.q (some (rsiLatestOf (closesOf rows)))),
      ("MACD", Value.q (some (latestMacd rows))),
      ("MACD_Signal", Value.i (macdSigF rows)),
      ("BB_Upper", Value.q (bbUpperLatest sq rows)),
      ("BB_Lower", Value.q (bbLowerLatest sq rows)),
      ("BB_Middle", Value.q (bbMiddleLatest rows)),
      ("Stoch_K", Value.q (latestStochK rows)),
      ("Stoch_D", Value.q (latestStochD rows)),
      ("Volume", Value.i (latestVolume rows)),
      ("MA_Signal", Value.i (maSigF rows)),
      ("RSI_Signal", Value.i (rsiSigF rows)),
      ("BB_Signal", Value.i (bbSigF sq rows))]
        ("Stoch_Signal", Value.i (stochSigF rows)) =
      [("MA_5", Value.q (latestMa5 rows)),
      ("MA_20", Value.q (latestMa20 rows)),
      ("MA_50", Value.q (latestMa50 rows)),
      ("RSI", Value.q (some (rsiLatestOf (closesOf rows)))),
      ("MACD", Value.q (some (latestMacd rows))),
      ("MACD_Signal", Value.i (macdSigF rows)),
      ("BB_Upper", Value.q (bbUpperLatest sq rows)),
      ("BB_Lower", Value.q (bbLowerLatest sq rows)),
      ("BB_Middle", Value.q (bbMiddleLatest rows)),
      ("Stoch_K", Value.q (latestStochK rows)),
      ("Stoch_D", Value.q (latestStochD rows)),
      ("Volume", Value.i (latestVolume rows)),
      ("MA_Signal", Value.i (maSigF rows)),
      ("RSI_Signal", Value.i (rsiSigF rows)),
      ("BB_Signal", Value.i (bbSigF sq rows)),
      ("Stoch_Signal", Value.i (stochSigF rows))] := rfl
  rw [h0, h1, h2, h3, h4, h5, h6, h7, h8, h9, h10, h11, h12, h13, h14, h15, h16]

/-- C7: Evaluation is deterministic: the indicator computation and the
voting aggregation are pure functions of the supplied series, so running
them twice on identical input yields identical outputs in every field. -/
theorem evaluation_deterministic (sq : ℚ → ℚ) (rows rows2 : List Row) (h : rows = rows2) :
    techSignalsOn sq rows = techSignalsOn sq rows2 ∧
    analyzeSignals (techSignalsOn sq rows) = analyzeSignals (techSignalsOn sq rows2) := by
  subst h
  exact ⟨rfl, rfl⟩

/-- Witness for C7 at a concrete series. -/
theorem evaluation_deterministic_w :
    techSignalsOn sq0 exRows1 = techSignalsOn sq0 exRows1 ∧
    analyzeSignals (techSignalsOn sq0 exRows1) = analyzeSignals (techSignalsOn sq0 exRows1) :=
  evaluation_deterministic sq0 exRows1 exRows1 rfl

/-- C8: Feeding the signals mapping stored in a result record back through
the Voting Aggregator alone reproduces exactly the call and the confidence
stored in that record. -/
theorem roundtrip_aggregator (sq : ℚ → ℚ) (s : StockData) (historical : List Row) :
    analyzeSignals (mkResult sq s historical).signals =
      { signal := (mkResult sq s historical).signal,
        confidence := (mkResult sq s historical).confidence } := rfl

/-- C10: In every returned signals mapping the key `MACD_Signal` holds the
ternary MACD micro-signal (the later duplicate entry of the dict literal
overwrites the earlier one), and the MACD signal-line value is not stored
under that key. -/
theorem macd_signal_key_overwritten (sq : ℚ → ℚ) (rows : List Row) :
    (techSignalsOn sq rows).countP (fun e => e.1 == "MACD_Signal") = 1 ∧
    dlookup (techSignalsOn sq rows) "MACD_Signal" =
      some (Value.i (if rows.length < 30 then 0 else macdSigF rows)) ∧
    dlookup (techSignalsOn sq rows) "MACD_Signal" ≠
      some (Value.q (some (latestSigLine rows))) := by
  have hlen : (closesOf rows).length = rows.length := by simp [closesOf]
  by_cases h : rows.length < 30
  · have hc : (closesOf rows).length < 30 := by rw [hlen]; exact h
    unfold techSignalsOn
    rw [if_pos hc, pyDict_fallback]
    refine ⟨rfl, ?_, ?_⟩
    · rw [if_pos h]
      rfl
    · intro hx
      exact Value.noConfusion (Option.some.inj hx)
  · have hc : ¬ (closesOf rows).length < 30 := by rw [hlen]; exact h
    unfold techSignalsOn
    rw [if_neg hc, pyDict_full]
    refine ⟨rfl, ?_, ?_⟩
    · rw [if_neg h]
      rfl
    · intro hx
      exact Value.noConfusion (Option.some.inj hx)

/-- One voting step, rewritten through the numeric value of the binding. -/
theorem voteStep_eq (d : PyDict) (acc : Fl × ℚ) (k : String) (w m : ℚ)
    (h : toNum (dgetD d k (Value.i 0)) = some m) :
    voteStep d acc (k, w) = if m ≠ 0 then (flAdd acc.1 (some (m * w)), acc.2 + w) else acc := by
  unfold voteStep
  cases hv : dgetD d k (Value.i 0) with
  | i z =>
      rw [hv] at h
      simp only [toNum, Option.some.injEq] at h
      subst h
      by_cases hz : z = 0
      · subst hz
        simp [pyNeZero]
      · simp [pyNeZero, hz, flMulW, toNum, Int.cast_eq_zero]
  | q x =>
      rw [hv] at h
      simp only [toNum] at h
      subst h
      by_cases hm : m = 0
      · subst hm
        simp [pyNeZero]
      · simp [pyNeZero, hm, flMulW, toNum]

/-- The voting fold computes exactly the spec's score and total weight. -/
theorem vote_fold (d : PyDict) (m r c b s : ℚ)
    (hM : toNum (dgetD d "MA_Signal" (Value.i 0)) = some m)
    (hR : toNum (dgetD d "RSI_Signal" (Value.i 0)) = some r)
    (hC : toNum (dgetD d "MACD_Signal" (Value.i 0)) = some c)
    (hB : toNum (dgetD d "BB_Signal" (Value.i 0)) = some b)
    (hS : toNum (dgetD d "Stoch_Signal" (Value.i 0)) = some s) :
    voteWeights.foldl (voteStep d) (some 0, 0) =
      (some (specScore m r c b s), specWeight m r c b s) := by
  simp only [voteWeights, List.foldl_cons, List.foldl_nil]
  rw [voteStep_eq d _ _ _ _ hM, voteStep_eq d _ _ _ _ hR, voteStep_eq d _ _ _ _ hC,
    voteStep_eq d _ _ _ _ hB, voteStep_eq d _ _ _ _ hS]
  unfold specScore specWeight
  by_cases hm : m = 0 <;> by_cases hr : r = 0 <;> by_cases hc2 : c = 0 <;>
    by_cases hb : b = 0 <;> by_cases hs : s = 0 <;>
    simp [hm, hr, hc2, hb, hs, flAdd, Prod.ext_iff]

/-- The spec's total weight is never negative. -/
theorem specWeight_nonneg (m r c b s : ℚ) : 0 ≤ specWeight m r c b s := by
  unfold specWeight
  split_ifs <;> norm_num

/-- When the spec's total weight vanishes every indicator was neutral, so
the spec's score vanishes too. -/
theorem specScore_zero_of_weight_zero (m r c b s : ℚ)
    (h : specWeight m r c b s = 0) : specScore m r c b s = 0 := by
  unfold specWeight at h
  unfold specScore
  by_cases hm : m = 0 <;> by_cases hr : r = 0 <;> by_cases hc2 : c = 0 <;>
    by_cases hb : b = 0 <;> by_cases hs : s = 0 <;>
    simp [hm, hr, hc2, hb, hs] at h ⊢ <;> norm_num at h

/-- C1: For every signals mapping given to `analyze_signals`, the score is
the sum of `weight_i * signal_i` over exactly the indicators whose
micro-signal is non-zero (weights MA 0.30, RSI 0.20, MACD 0.20, Bollinger
0.15, Stochastic 0.15), the confidence is `|score|` when the summed weight
of the non-neutral indicators is positive and 0 otherwise, and the call is
BUY when `score > 0.3`, SELL when `score < -0.3`, and HOLD otherwise. -/
theorem analyze_signals_weighted_vote (d : PyDict) (m r c b s : ℚ)
    (hM : toNum (dgetD d "MA_Signal" (Value.i 0)) = some m)
    (hR : toNum (dgetD d "RSI_Signal" (Value.i 0)) = some r)
    (hC : toNum (dgetD d "MACD_Signal" (Value.i 0)) = some c)
    (hB : toNum (dgetD d "BB_Signal" (Value.i 0)) = some b)
    (hS : toNum (dgetD d "Stoch_Signal" (Value.i 0)) = some s) :
    analyzeSignals d =
      { signal :=
          if 3 / 10 < specScore m r c b s then "BUY"
          else if specScore m r c b s < -(3 / 10) then "SELL"
          else "HOLD",
        confidence :=
          some (if 0 < specWeight m r c b s then |specScore m r c b s| else 0) } := by
  unfold analyzeSignals
  rw [vote_fold d m r c b s hM hR hC hB hS]
  by_cases hw : 0 < specWeight m r c b s
  · simp [hw, flGt, flLt, flAbs]
  · have h0 : specWeight m r c b s = 0 :=
      le_antisymm (not_lt.1 hw) (specWeight_nonneg m r c b s)
    have hs0 : specScore m r c b s = 0 := specScore_zero_of_weight_zero m r c b s h0
    rw [hs0]
    simp [hw]
    norm_num

/-- Witness for C1: a mapping with a single BUY moving-average vote. -/
theorem analyze_signals_weighted_vote_w :
    analyzeSignals exDict =
      { signal :=
          if 3 / 10 < specScore 1 0 0 0 0 then "BUY"
          else if specScore 1 0 0 0 0 < -(3 / 10) then "SELL"
          else "HOLD",
        confidence :=
          some (if 0 < specWeight 1 0 0 0 0 then |specScore 1 0 0 0 0| else 0) } :=
  analyze_signals_weighted_vote exDict 1 0 0 0 0 (by with_unfolding_all decide)
    (by with_unfolding_all decide) (by with_unfolding_all decide)
    (by with_unfolding_all decide) (by with_unfolding_all decide)

/-- C2: For every series with fewer than 30 observations the engine
short-circuits to the canonical neutral output: call HOLD with confidence 0,
every micro-signal NEUTRAL, and MA_5, MA_20, MA_50 all equal to the latest
close. -/
theorem insufficient_data_neutral (sq : ℚ → ℚ) (rows : List Row)
    (h1 : rows ≠ []) (h2 : rows.length < 30) :
    analyzeSignals (techSignalsOn sq rows) = { signal := "HOLD", confidence := some 0 } ∧
    dlookup (techSignalsOn sq rows) "MA_5" = some (Value.q (some (latestClose rows))) ∧
    dlookup (techSignalsOn sq rows) "MA_20" = some (Value.q (some (latestClose rows))) ∧
    dlookup (techSignalsOn sq rows) "MA_50" = some (Value.q (some (latestClose rows))) ∧
    dlookup (techSignalsOn sq rows) "MA_Signal" = some (Value.i 0) ∧
    dlookup (techSignalsOn sq rows) "RSI_Signal" = some (Value.i 0) ∧
    dlookup (techSignalsOn sq rows) "MACD_Signal" = some (Value.i 0) ∧
    dlookup (techSignalsOn sq rows) "BB_Signal" = some (Value.i 0) ∧
    dlookup (techSignalsOn sq rows) "Stoch_Signal" = some (Value.i 0) := by
  have hc : (closesOf rows).length < 30 := by simpa [closesOf] using h2
  have hD : techSignalsOn sq rows = pyDict (fallbackEntries rows) := by
    unfold techSignalsOn
    rw [if_pos hc]
  rw [hD, pyDict_fallback]
  refine ⟨?_, rfl, rfl, rfl, rfl, rfl, rfl, rfl, rfl⟩
  have hM : toNum (dgetD (pyDict (fallbackEntries rows)) "MA_Signal" (Value.i 0)) =
      some (0 : ℚ) := by rw [pyDict_fallback]; rfl
  have hR : toNum (dgetD (pyDict (fallbackEntries rows)) "RSI_Signal" (Value.i 0)) =
      some (0 : ℚ) := by rw [pyDict_fallback]; rfl
  have hC : toNum (dgetD (pyDict (fallbackEntries rows)) "MACD_Signal" (Value.i 0)) =
      some (0 : ℚ) := by rw [pyDict_fallback]; rfl
  have hB : toNum (dgetD (pyDict (fallbackEntries rows)) "BB_Signal" (Value.i 0)) =
      some (0 : ℚ) := by rw [pyDict_fallback]; rfl
  have hS : toNum (dgetD (pyDict (fallbackEntries rows)) "Stoch_Signal" (Value.i 0)) =
      some (0 : ℚ) := by rw [pyDict_fallback]; rfl
  rw [← pyDict_fallback rows]
  unfold analyzeSignals
  rw [vote_fold _ 0 0 0 0 0 hM hR hC hB hS]
  norm_num [specScore, specWeight]

/-- Witness for C2 at a one-observation series. -/
theorem insufficient_data_neutral_w :
    analyzeSignals (techSignalsOn sq0 exRows1) = { signal := "HOLD", confidence := some 0 } ∧
    dlookup (techSignalsOn sq0 exRows1) "MA_5" = some (Value.q (some (latestClose exRows1))) ∧
    dlookup (techSignalsOn sq0 exRows1) "MA_20" = some (Value.q (some (latestClose exRows1))) ∧
    dlookup (techSignalsOn sq0 exRows1) "MA_50" = some (Value.q (some (latestClose exRows1))) ∧
    dlookup (techSignalsOn sq0 exRows1) "MA_Signal" = some (Value.i 0) ∧
    dlookup (techSignalsOn sq0 exRows1) "RSI_Signal" = some (Value.i 0) ∧
    dlookup (techSignalsOn sq0 exRows1) "MACD_Signal" = some (Value.i 0) ∧
    dlookup (techSignalsOn sq0 exRows1) "BB_Signal" = some (Value.i 0) ∧
    dlookup (techSignalsOn sq0 exRows1) "Stoch_Signal" = some (Value.i 0) :=
  insufficient_data_neutral sq0 exRows1 (by decide) (by decide)

/-- Suppression in an up-trend removes every SELL. -/
theorem suppress_ne_neg_one (t s : ℤ) (h : t = 1) : suppress t s ≠ -1 := by
  unfold suppress
  split_ifs <;> omega

/-- Suppression outside an up-trend removes every BUY. -/
theorem suppress_ne_one (t s : ℤ) (h : t ≠ 1) : suppress t s ≠ 1 := by
  unfold suppress
  split_ifs <;> omega

/-- C3: On the full computation path the signals stored for the aggregator
are the trend-filtered ones; in an up-trend no SELL micro-signal survives,
and in a down-trend no BUY micro-signal survives, uniformly for all five
indicators. -/
theorem trend_suppression (sq : ℚ → ℚ) (rows : List Row) (h : 30 ≤ rows.length) :
    (dlookup (techSignalsOn sq rows) "MA_Signal" = some (Value.i (maSigF rows)) ∧
     dlookup (techSignalsOn sq rows) "RSI_Signal" = some (Value.i (rsiSigF rows)) ∧
     dlookup (techSignalsOn sq rows) "MACD_Signal" = some (Value.i (macdSigF rows)) ∧
     dlookup (techSignalsOn sq rows) "BB_Signal" = some (Value.i (bbSigF sq rows)) ∧
     dlookup (techSignalsOn sq rows) "Stoch_Signal" = some (Value.i (stochSigF rows))) ∧
    (trendDir rows = 1 →
      maSigF rows ≠ -1 ∧ rsiSigF rows ≠ -1 ∧ macdSigF rows ≠ -1 ∧
      bbSigF sq rows ≠ -1 ∧ stochSigF rows ≠ -1) ∧
    (trendDir rows = -1 →
      maSigF rows ≠ 1 ∧ rsiSigF rows ≠ 1 ∧ macdSigF rows ≠ 1 ∧
      bbSigF sq rows ≠ 1 ∧ stochSigF rows ≠ 1) := by
  have hc : ¬ (closesOf rows).length < 30 := by simp [closesOf]; omega
  have hD : techSignalsOn sq rows = pyDict (fullEntries sq rows) := by
    unfold techSignalsOn
    rw [if_neg hc]
  refine ⟨?_, ?_, ?_⟩
  · rw [hD, pyDict_full]
    exact ⟨rfl, rfl, rfl, rfl, rfl⟩
  · intro ht
    exact ⟨suppress_ne_neg_one _ _ ht, suppress_ne_neg_one _ _ ht,
      suppress_ne_neg_one _ _ ht, suppress_ne_neg_one _ _ ht, suppress_ne_neg_one _ _ ht⟩
  · intro ht
    have htne : trendDir rows ≠ 1 := by rw [ht]; decide
    exact ⟨suppress_ne_one _ _ htne, suppress_ne_one _ _ htne, suppress_ne_one _ _ htne,
      suppress_ne_one _ _ htne, suppress_ne_one _ _ htne⟩

/-- Witness for C3 at a concrete 30-observation series. -/
theorem trend_suppression_w :
    (dlookup (techSignalsOn sq0 exRows30) "MA_Signal" = some (Value.i (maSigF exRows30)) ∧
     dlookup (techSignalsOn sq0 exRows30) "RSI_Signal" = some (Value.i (rsiSigF exRows30)) ∧
     dlookup (techSignalsOn sq0 exRows30) "MACD_Signal" = some (Value.i (macdSigF exRows30)) ∧
     dlookup (techSignalsOn sq0 exRows30) "BB_Signal" = some (Value.i (bbSigF sq0 exRows30)) ∧
     dlookup (techSignalsOn sq0 exRows30) "Stoch_Signal" = some (Value.i (stochSigF exRows30))) ∧
    (trendDir exRows30 = 1 →
      maSigF exRows30 ≠ -1 ∧ rsiSigF exRows30 ≠ -1 ∧ macdSigF exRows30 ≠ -1 ∧
      bbSigF sq0 exRows30 ≠ -1 ∧ stochSigF exRows30 ≠ -1) ∧
    (trendDir exRows30 = -1 →
      maSigF exRows30 ≠ 1 ∧ rsiSigF exRows30 ≠ 1 ∧ macdSigF exRows30 ≠ 1 ∧
      bbSigF sq0 exRows30 ≠ 1 ∧ stochSigF exRows30 ≠ 1) :=
  trend_suppression sq0 exRows30 (by decide)

/-- A rolling mean has the length of its input series. -/
theorem rollingMean_length (w : ℕ) (xs : List ℚ) :
    (rollingMean w xs).length = xs.length := by
  simp [rollingMean]

/-- A rolling mean over a series shorter than its window is NaN everywhere,
in particular at the last position. -/
theorem rollingMean_last_none (w : ℕ) (xs : List ℚ) (h0 : xs ≠ [])
    (h : xs.length < w) : (rollingMean w xs).getLastD none = none := by
  have hn : 0 < xs.length := List.length_pos.mpr h0
  rw [List.getLastD_eq_getLast?, List.getLast?_eq_getElem?, rollingMean_length]
  unfold rollingMean
  rw [List.getElem?_map, List.getElem?_range (by omega : xs.length - 1 < xs.length)]
  have hw : xs.length - 1 + 1 < w := by omega
  simp [hw]

/-- For a series of 30 to 49 observations the stored `MA_50` value is NaN. -/
theorem latestMa50_none (rows : List Row) (h1 : 30 ≤ rows.length)
    (h2 : rows.length < 50) : latestMa50 rows = none := by
  have hlen : (ma50of rows).length = rows.length := by
    simp [ma50of, rollingMean_length, closesOf]
  have hcl : (closesOf rows).length = rows.length := by simp [closesOf]
  unfold latestMa50
  rw [if_pos (by omega : 1 < (ma50of rows).length)]
  unfold ma50of
  refine rollingMean_last_none 50 _ ?_ (by omega)
  intro hnil
  rw [hnil] at hcl
  simp at hcl
  omega

/-- A NaN 50-period moving average forces the down-trend branch. -/
theorem trendDir_neg_of_none (rows : List Row) (h : latestMa50 rows = none) :
    trendDir rows = -1 := by
  unfold trendDir
  rw [h]
  rfl

/-- The raw moving-average micro-signal is ternary. -/
theorem maSigRaw_cases (rows : List Row) :
    maSigRaw rows = -1 ∨ maSigRaw rows = 0 ∨ maSigRaw rows = 1 := by
  unfold maSigRaw
  split_ifs <;> simp

/-- The raw RSI micro-signal is ternary. -/
theorem rsiSigRaw_cases (rows : List Row) :
    rsiSigRaw rows = -1 ∨ rsiSigRaw rows = 0 ∨ rsiSigRaw rows = 1 := by
  unfold rsiSigRaw
  split_ifs <;> simp

/-- The raw MACD micro-signal is ternary. -/
theorem macdSigRaw_cases (rows : List Row) :
    macdSigRaw rows = -1 ∨ macdSigRaw rows = 0 ∨ macdSigRaw rows = 1 := by
  unfold macdSigRaw
  split_ifs <;> simp

/-- The raw Bollinger micro-signal is ternary. -/
theorem bbSigRaw_cases (sq : ℚ → ℚ) (rows : List Row) :
    bbSigRaw sq rows = -1 ∨ bbSigRaw sq rows = 0 ∨ bbSigRaw sq rows = 1 := by
  unfold bbSigRaw
  split_ifs <;> simp

/-- The raw stochastic micro-signal is ternary. -/
theorem stochSigRaw_cases (rows : List Row) :
    stochSigRaw rows = -1 ∨ stochSigRaw rows = 0 ∨ stochSigRaw rows = 1 := by
  unfold stochSigRaw
  split_ifs <;> simp

/-- A ternary micro-signal filtered outside an up-trend is never positive. -/
theorem suppress_nonpos (t s : ℤ) (h : t ≠ 1) (hs : s = -1 ∨ s = 0 ∨ s = 1) :
    suppress t s ≤ 0 := by
  rcases hs with rfl | rfl | rfl <;> unfold suppress <;> split_ifs <;> omega

/-- When all five voted micro-signals are non-positive, the aggregator can
never answer BUY. -/
theorem analyze_nonpos_not_buy (d : PyDict) (z1 z2 z3 z4 z5 : ℤ)
    (e1 : dgetD d "MA_Signal" (Value.i 0) = Value.i z1)
    (e2 : dgetD d "RSI_Signal" (Value.i 0) = Value.i z2)
    (e3 : dgetD d "MACD_Signal" (Value.i 0) = Value.i z3)
    (e4 : dgetD d "BB_Signal" (Value.i 0) = Value.i z4)
    (e5 : dgetD d "Stoch_Signal" (Value.i 0) = Value.i z5)
    (n1 : z1 ≤ 0) (n2 : z2 ≤ 0) (n3 : z3 ≤ 0) (n4 : z4 ≤ 0) (n5 : z5 ≤ 0) :
    (analyzeSignals d).signal ≠ "BUY" := by
  have hM : toNum (dgetD d "MA_Signal" (Value.i 0)) = some (z1 : ℚ) := by rw [e1]; rfl
  have hR : toNum (dgetD d "RSI_Signal" (Value.i 0)) = some (z2 : ℚ) := by rw [e2]; rfl
  have hC : toNum (dgetD d "MACD_Signal" (Value.i 0)) = some (z3 : ℚ) := by rw [e3]; rfl
  have hB : toNum (dgetD d "BB_Signal" (Value.i 0)) = some (z4 : ℚ) := by rw [e4]; rfl
  have hS : toNum (dgetD d "Stoch_Signal" (Value.i 0)) = some (z5 : ℚ) := by rw [e5]; rfl
  have c1 : (z1 : ℚ) ≤ 0 := by exact_mod_cast n1
  have c2 : (z2 : ℚ) ≤ 0 := by exact_mod_cast n2
  have c3 : (z3 : ℚ) ≤ 0 := by exact_mod_cast n3
  have c4 : (z4 : ℚ) ≤ 0 := by exact_mod_cast n4
  have c5 : (z5 : ℚ) ≤ 0 := by exact_mod_cast n5
  have hsc : specScore (z1 : ℚ) (z2 : ℚ) (z3 : ℚ) (z4 : ℚ) (z5 : ℚ) ≤ 0 := by
    unfold specScore
    split_ifs <;> linarith [c1, c2, c3, c4, c5]
  have hlt : ¬ (3 / 10 : ℚ) < specScore (z1 : ℚ) (z2 : ℚ) (z3 : ℚ) (z4 : ℚ) (z5 : ℚ) := by
    intro hcon
    linarith [hsc]
  unfold analyzeSignals
  rw [vote_fold d _ _ _ _ _ hM hR hC hB hS]
  by_cases hw : 0 < specWeight (z1 : ℚ) (z2 : ℚ) (z3 : ℚ) (z4 : ℚ) (z5 : ℚ)
  · simp [hw, flGt, flLt, hlt]
    split_ifs <;> simp
  · simp [hw]

/-- C9: For a series of at least 30 but fewer than 50 observations the
50-period moving average is NaN, the NaN comparison forces the down-trend
branch, every BUY micro-signal is suppressed, and the overall call can
never be BUY. -/
theorem ma50_nan_never_buy (sq : ℚ → ℚ) (rows : List Row)
    (h1 : 30 ≤ rows.length) (h2 : rows.length < 50) :
    latestMa50 rows = none ∧ trendDir rows = -1 ∧
    (maSigF rows ≠ 1 ∧ rsiSigF rows ≠ 1 ∧ macdSigF rows ≠ 1 ∧
     bbSigF sq rows ≠ 1 ∧ stochSigF rows ≠ 1) ∧
    (analyzeSignals (techSignalsOn sq rows)).signal ≠ "BUY" := by
  have hma := latestMa50_none rows h1 h2
  have htd := trendDir_neg_of_none rows hma
  have htne : trendDir rows ≠ 1 := by rw [htd]; decide
  have hc : ¬ (closesOf rows).length < 30 := by simp [closesOf]; omega
  have hD : techSignalsOn sq rows = pyDict (fullEntries sq rows) := by
    unfold techSignalsOn
    rw [if_neg hc]
  refine ⟨hma, htd,
    ⟨suppress_ne_one _ _ htne, suppress_ne_one _ _ htne, suppress_ne_one _ _ htne,
     suppress_ne_one _ _ htne, suppress_ne_one _ _ htne⟩, ?_⟩
  rw [hD, pyDict_full]
  refine analyze_nonpos_not_buy _ (maSigF rows) (rsiSigF rows) (macdSigF rows)
    (bbSigF sq rows) (stochSigF rows) rfl rfl rfl rfl rfl ?_ ?_ ?_ ?_ ?_
  · exact suppress_nonpos _ _ htne (maSigRaw_cases rows)
  · exact suppress_nonpos _ _ htne (rsiSigRaw_cases rows)
  · exact suppress_nonpos _ _ htne (macdSigRaw_cases rows)
  · exact suppress_nonpos _ _ htne (bbSigRaw_cases sq rows)
  · exact suppress_nonpos _ _ htne (stochSigRaw_cases rows)

/-- Witness for C9 at a concrete 30-observation series. -/
theorem ma50_nan_never_buy_w :
    latestMa50 exRows30 = none ∧ trendDir exRows30 = -1 ∧
    (maSigF exRows30 ≠ 1 ∧ rsiSigF exRows30 ≠ 1 ∧ macdSigF exRows30 ≠ 1 ∧
     bbSigF sq0 exRows30 ≠ 1 ∧ stochSigF exRows30 ≠ 1) ∧
    (analyzeSignals (techSignalsOn sq0 exRows30)).signal ≠ "BUY" :=
  ma50_nan_never_buy sq0 exRows30 (by decide) (by decide)

/-- Division by a NaN divisor is NaN for any numerator. -/
theorem flDiv_none (g : Fl) : flDiv g none = none := by
  cases g <;> rfl

/-- `diff` preserves the length of the series. -/
theorem diffL_length (xs : List ℚ) : (diffL xs).length = xs.length := by
  cases xs with
  | nil => rfl
  | cons x rest => simp [diffL, List.length_zipWith]

/-- The gains series has the length of the input series. -/
theorem gainsL_length (xs : List ℚ) : (gainsL xs).length = xs.length := by
  simp [gainsL, diffL_length]

/-- The losses series has the length of the input series. -/
theorem lossesL_length (xs : List ℚ) : (lossesL xs).length = xs.length := by
  simp [lossesL, diffL_length]

/-- The RSI series has the length of the input series. -/
theorem rsiSeries_length (period : ℕ) (xs : List ℚ) :
    (rsiSeries period xs).length = xs.length := by
  simp [rsiSeries, rsiRs, rsiGain, rsiLoss, List.length_zipWith, rollingMean_length,
    gainsL_length, lossesL_length]

/-- Amended C4: when the 14-period rolling average loss at the last position
is zero (for instance because every day-over-day delta is non-negative), the
code replaces the zero loss by NaN and `fillna` turns the resulting NaN RSI
into the neutral substitute 50 — not into the Wilder saturation value 100. -/
theorem rsi_zero_avg_loss_is_50 (xs : List ℚ)
    (h : (rollingMean 14 (lossesL xs)).getLastD none = some 0) :
    rsiLatestOf xs = 50 := by
  have hxs : xs ≠ [] := by
    intro hnil
    rw [hnil] at h
    simp [lossesL, diffL, rollingMean] at h
  have hn : 0 < xs.length := List.length_pos.mpr hxs
  rw [List.getLastD_eq_getLast?, List.getLast?_eq_getElem?, rollingMean_length,
    lossesL_length] at h
  cases hg : (rollingMean 14 (lossesL xs))[xs.length - 1]? with
  | none => rw [hg] at h; simp at h
  | some v =>
      rw [hg] at h
      simp only [Option.getD_some] at h
      subst h
      have hLoss : (rsiLoss 14 xs)[xs.length - 1]? = some none := by
        unfold rsiLoss
        rw [List.getElem?_map, hg]
        rfl
      have hGainLt : xs.length - 1 < (rsiGain 14 xs).length := by
        unfold rsiGain
        rw [rollingMean_length, gainsL_length]
        omega
      obtain ⟨g, hGain⟩ : ∃ g, (rsiGain 14 xs)[xs.length - 1]? = some g :=
        ⟨_, List.getElem?_eq_getElem hGainLt⟩
      have hRs : (rsiRs 14 xs)[xs.length - 1]? = some none := by
        unfold rsiRs
        rw [List.getElem?_zipWith, hGain, hLoss]
        simp [flDiv_none]
      unfold rsiLatestOf
      rw [List.getLastD_eq_getLast?, List.getLast?_eq_getElem?, rsiSeries_length]
      unfold rsiSeries
      rw [List.getElem?_map, List.getElem?_map, hRs]
      rfl

/-- Witness for the amended C4 at a strictly increasing series. -/
theorem rsi_zero_avg_loss_is_50_w : rsiLatestOf exInc = 50 :=
  rsi_zero_avg_loss_is_50 exInc (by with_unfolding_all decide)

/-- Counterexample to C4 as stated: for the strictly increasing series
`exInc` the average loss over the 14-step window is zero, yet the computed
RSI is the substituted neutral 50, not the saturation value 100. -/
theorem rsi_zero_loss_cex :
    (rollingMean 14 (lossesL exInc)).getLastD none = some 0 ∧
    rsiLatestOf exInc = 50 ∧ rsiLatestOf exInc ≠ 100 := by
  with_unfolding_all decide

/-- Amended C5: the MACD micro-signal is BUY exactly on a strict upward
cross (previous MACD strictly below previous signal AND latest MACD strictly
above latest signal), SELL exactly on the strict downward cross, and NEUTRAL
otherwise; in particular an upward cross starting from equality of the
previous values yields NEUTRAL, not BUY. -/
theorem macd_cross_strict (rows : List Row) :
    (macdSigRaw rows = 1 ↔
      (prevMacd rows < prevSigLine rows ∧ latestSigLine rows < latestMacd rows)) ∧
    (macdSigRaw rows = -1 ↔
      (prevSigLine rows < prevMacd rows ∧ latestMacd rows < latestSigLine rows)) ∧
    (prevMacd rows = prevSigLine rows → macdSigRaw rows ≠ 1) := by
  unfold macdSigRaw
  split_ifs with h1 h2
  · refine ⟨by simp [h1], ?_, fun he => absurd h1.1 (by rw [he]; exact lt_irrefl _)⟩
    constructor
    · intro hcon
      exact absurd hcon (by decide)
    · intro hc2
      exact ((by linarith [h1.1, hc2.1] : False)).elim
  · refine ⟨?_, by simp [h2], fun he => by decide⟩
    constructor
    · intro hcon
      exact absurd hcon (by decide)
    · intro hc1
      exact absurd hc1 h1
  · refine ⟨?_, ?_, fun he => by decide⟩
    · constructor
      · intro hcon
        exact absurd hcon (by decide)
      · intro hc1
        exact absurd hc1 h1
    · constructor
      · intro hcon
        exact absurd hcon (by decide)
      · intro hc2
        exact absurd hc2 h2

set_option maxRecDepth 8000 in
set_option maxHeartbeats 2000000 in
/-- Counterexample to C5 as stated: on the series `exJump` the previous
MACD equals the previous signal line and the latest MACD is strictly above
the latest signal line (an upward cross starting from equality), yet the
micro-signal is NEUTRAL, not BUY. -/
theorem macd_equal_start_cex :
    prevMacd exJump = prevSigLine exJump ∧
    latestSigLine exJump < latestMacd exJump ∧
    macdSigRaw exJump = 0 := by
  with_unfolding_all decide

/-- Lookup of `Stoch_K` on the full-path record. -/
theorem dlookup_full_stochK (sq : ℚ → ℚ) (rows : List Row) :
    dlookup (pyDict (fullEntries sq rows)) "Stoch_K" =
      some (Value.q (latestStochK rows)) := by
  rw [pyDict_full]
  rfl

/-- Lookup of `MA_50` on the full-path record. -/
theorem dlookup_full_ma50 (sq : ℚ → ℚ) (rows : List Row) :
    dlookup (pyDict (fullEntries sq rows)) "MA_50" =
      some (Value.q (latestMa50 rows)) := by
  rw [pyDict_full]
  rfl

set_option maxRecDepth 8000 in
set_option maxHeartbeats 2000000 in
/-- Counterexample to C6 as stated: for thirty identical observations the
record returned by `calculate_technical_signals` carries NaN in its
`Stoch_K` field (zero high-low range gives `0/0`) and in its `MA_50` field
(window longer than the series), so not every field of the returned signal
record is a defined finite value. -/
theorem record_nan_field_cex :
    dlookup (techSignalsOn sq0 exRows30) "Stoch_K" = some (Value.q none) ∧
    dlookup (techSignalsOn sq0 exRows30) "MA_50" = some (Value.q none) := by
  have hc : ¬ (closesOf exRows30).length < 30 := by decide
  have h1 : latestStochK exRows30 = none := by with_unfolding_all decide
  have h2 : latestMa50 exRows30 = none := by with_unfolding_all decide
  unfold techSignalsOn
  rw [if_neg hc, dlookup_full_stochK, dlookup_full_ma50, h1, h2]
  exact ⟨rfl, rfl⟩

/-- Sanitized values are never NaN. -/
theorem sanitizeValue_ne_nan (v : Value) : sanitizeValue v ≠ Value.q none := by
  cases v with
  | i z => simp [sanitizeValue]
  | q x => cases x <;> simp [sanitizeValue]

/-- Amended C6: the record persisted by the handler goes through
`float_to_decimal`, which replaces every NaN (and infinity) by 0, so no
field of the stored record is NaN or infinite. -/
theorem stored_record_no_nan (sq : ℚ → ℚ) (rows : List Row) (k : String) (v : Value)
    (h : dlookup (sanitizeDict (techSignalsOn sq rows)) k = some v) :
    v ≠ Value.q none := by
  generalize techSignalsOn sq rows = d at h
  induction d with
  | nil => simp [sanitizeDict, dlookup] at h
  | cons e rest ih =>
      rw [show sanitizeDict (e :: rest) = (e.1, sanitizeValue e.2) :: sanitizeDict rest
        from rfl] at h
      unfold dlookup at h ih
      rw [List.find?_cons] at h
      by_cases he : (e.1 == k)
      · simp only [he, cond_true] at h
        simp at h
        subst h
        exact sanitizeValue_ne_nan e.2
      · simp only [he, cond_false] at h
        exact ih h

set_option maxRecDepth 8000 in
set_option maxHeartbeats 2000000 in
/-- Witness for the amended C6: the stored `Stoch_K` of the all-identical
series is the sanitized 0, which is a defined value. -/
theorem stored_record_no_nan_w : Value.q (some 0) ≠ Value.q none :=
  stored_record_no_nan sq0 exRows30 "Stoch_K" (Value.q (some 0)) (by
    have hc : ¬ (closesOf exRows30).length < 30 := by decide
    have h1 : latestStochK exRows30 = none := by with_unfolding_all decide
    unfold techSignalsOn
    rw [if_neg hc, pyDict_full, h1]
    rfl)

/-- Witness for the amended C5 at the concrete jump series. -/
theorem macd_cross_strict_w :
    (macdSigRaw exJump = 1 ↔
      (prevMacd exJump < prevSigLine exJump ∧ latestSigLine exJump < latestMacd exJump)) ∧
    (macdSigRaw exJump = -1 ↔
      (prevSigLine exJump < prevMacd exJump ∧ latestMacd exJump < latestSigLine exJump)) ∧
    (prevMacd exJump = prevSigLine exJump → macdSigRaw exJump ≠ 1) :=
  macd_cross_strict exJump

/-- Witness for C10 at a concrete one-observation series. -/
theorem macd_signal_key_overwritten_w :
    (techSignalsOn sq0 exRows1).countP (fun e => e.1 == "MACD_Signal") = 1 ∧
    dlookup (techSignalsOn sq0 exRows1) "MACD_Signal" =
      some (Value.i (if exRows1.length < 30 then 0 else macdSigF exRows1)) ∧
    dlookup (techSignalsOn sq0 exRows1) "MACD_Signal" ≠
      some (Value.q (some (latestSigLine exRows1))) :=
  macd_signal_key_overwritten sq0 exRows1

/-- Witness for C8 at a concrete tick with no history. -/
theorem roundtrip_aggregator_w :
    analyzeSignals
        (mkResult sq0
          { symbol := "X", timestamp := 0, openPrice := 100, high := 100, low := 100,
            close := 100, volume := 1 } []).signals =
      { signal :=
          (mkResult sq0
            { symbol := "X", timestamp := 0, openPrice := 100, high := 100, low := 100,
              close := 100, volume := 1 } []).signal,
        confidence :=
          (mkResult sq0
            { symbol := "X", timestamp := 0, openPrice := 100, high := 100, low := 100,
              close := 100, volume := 1 } []).confidence } :=
  roundtrip_aggregator sq0
    { symbol := "X", timestamp := 0, openPrice := 100, high := 100, low := 100,
      close := 100, volume := 1 } []
